import Mathlib

/-!
# Remmina rdesktop plugin

A shallow embedding of `src/remmina_plugin.c`: the command line that
`remmina_plugin_open_connection` assembles for the external `rdesktop` client, the
spawn of that client, the calls the plugin makes on the host service, the lifecycle
callbacks (`remmina_plugin_init`, the two socket handlers, close, query and call feature)
and the advanced settings table.

Conventions of the embedding.

* A `gchar *` is an `Option String`; `none` is the NULL pointer.
* A `gint` / `gboolean` is an `Int`; a C condition `if (x)` on an integer is `x ≠ 0`.
* The local array `argv` together with the counter `argc` is the list of the slots
  written so far, `argc` being its length; `argv[argc++] = p` appends `p`.
* Calls on the host service, on GTK and on GLib that have an effect outside the plugin
  are recorded, in program order, in a list of `HostCall`.
-/

namespace RemminaRdesktop

/-! ## The profile and the service accessors -/

/-- Modelled from the spec: the host-owned connection profile (`RemminaFile`) as the
plugin sees it through the accessors, "a mapping from option-name (string key) to value
(string, boolean, or integer)". The type and the accessors over it belong to the host; the
plugin only reads them. `none` is an option for which the accessor answers NULL; booleans
are integers, as the plugin reads them with `file_get_int`. Every answer is allowed here,
also a string that is not NULL and empty; which answers a stored profile gives, an empty
field being answered like an absent one, is `remminafile_of_profile`. -/
structure RemminaFile where
  strings : String → Option String
  secrets : String → Option String
  ints : String → Option Int

/-- Modelled from the spec: `remmina_plugin_service->file_get_string`, the string of the
option, or NULL when the option is not set. -/
def file_get_string (remminafile : RemminaFile) (setting : String) : Option String :=
  remminafile.strings setting

/-- Modelled from the spec: `remmina_plugin_service->file_get_secret`, the secret of the
option, or NULL when there is none. -/
def file_get_secret (remminafile : RemminaFile) (setting : String) : Option String :=
  remminafile.secrets setting

/-- Modelled from the spec: `remmina_plugin_service->file_get_int`, the stored integer, or
`default_value` when the option is not set. -/
def file_get_int (remminafile : RemminaFile) (setting : String) (default_value : Int) : Int :=
  match remminafile.ints setting with
  | some value => value
  | none => default_value

/-- GLib `g_strdup`: a copy of the string, NULL for NULL. -/
def g_strdup (str : Option String) : Option String := str

/-- Macro `GET_PLUGIN_STRING(value)`. -/
def GET_PLUGIN_STRING (remminafile : RemminaFile) (value : String) : Option String :=
  g_strdup (file_get_string remminafile value)

/-- Macro `GET_PLUGIN_BOOLEAN(value)`: `file_get_int` with default `FALSE`. -/
def GET_PLUGIN_BOOLEAN (remminafile : RemminaFile) (value : String) : Int :=
  file_get_int remminafile value 0

/-- Macro `GET_PLUGIN_INT(value, default_value)`. -/
def GET_PLUGIN_INT (remminafile : RemminaFile) (value : String) (default_value : Int) : Int :=
  file_get_int remminafile value default_value

/-- Macro `GET_PLUGIN_PASSWORD(value)`. -/
def GET_PLUGIN_PASSWORD (remminafile : RemminaFile) (value : String) : Option String :=
  g_strdup (file_get_secret remminafile value)

/-! ## The argument array -/

/-- The slots `argv[0 .. argc)` written so far. -/
abbrev Argv := List (Option String)

/-- The counter `argc`: the number of slots written. -/
def argc (argv : Argv) : Nat := argv.length

/-- The statement `argv[argc++] = str`. -/
def argv_put (argv : Argv) (str : Option String) : Argv := argv ++ [str]

/-- What a reader of a NULL-terminated `gchar **` sees: the strings before the first
NULL slot. -/
def argv_strings : Argv → List String
  | some str :: rest => str :: argv_strings rest
  | _ => []

/-- The conversion `%i` of `g_strdup_printf`: signed decimal. -/
def printf_i (value : Int) : String := toString value

/-- Blocks of the shape
`option_str = GET_PLUGIN_STRING(key); if (option_str) { argv[argc++] = g_strdup(flag);
argv[argc++] = g_strdup(option_str); }` (username, domain, clientname, exec, execpath,
title, keymap; for experience the second slot is `option_str` itself). -/
def put_string_option (remminafile : RemminaFile) (key flag : String) (argv : Argv) : Argv :=
  let option_str := GET_PLUGIN_STRING remminafile key
  match option_str with
  | some str =>
    let argv := argv_put argv (g_strdup (some flag))
    argv_put argv (g_strdup (some str))
  | none => argv

/-- The password block, lines 133-138: as above, read with `GET_PLUGIN_PASSWORD`. -/
def put_password_option (remminafile : RemminaFile) (key flag : String) (argv : Argv) : Argv :=
  let option_str := GET_PLUGIN_PASSWORD remminafile key
  match option_str with
  | some str =>
    let argv := argv_put argv (g_strdup (some flag))
    argv_put argv (g_strdup (some str))
  | none => argv

/-- Blocks of the shape
`option_str = GET_PLUGIN_STRING(key); if (option_str) { argv[argc++] = g_strdup(flag);
argv[argc++] = g_strdup_printf(pre "%s", option_str); }` (sharefolder, sound), where
`pre` is the literal text in front of `%s`. -/
def put_printf_option (remminafile : RemminaFile) (key flag pre : String) (argv : Argv) :
    Argv :=
  let option_str := GET_PLUGIN_STRING remminafile key
  match option_str with
  | some str =>
    let argv := argv_put argv (g_strdup (some flag))
    argv_put argv (some (pre ++ str))
  | none => argv

/-- Blocks of the shape `if (GET_PLUGIN_BOOLEAN(key)) { argv[argc++] = g_strdup(flag); }`. -/
def put_boolean_option (remminafile : RemminaFile) (key flag : String) (argv : Argv) : Argv :=
  if GET_PLUGIN_BOOLEAN remminafile key ≠ 0 then
    argv_put argv (g_strdup (some flag))
  else argv

/-- The display-mode block, lines 197-216. -/
def put_display_mode (remminafile : RemminaFile) (argv : Argv) : Argv :=
  if GET_PLUGIN_BOOLEAN remminafile "fullscreen" ≠ 0 then
    argv_put argv (g_strdup (some "-f"))
  else
    if GET_PLUGIN_BOOLEAN remminafile "seamlessrdp" ≠ 0 then
      argv_put argv (g_strdup (some "-A"))
    else
      let argv := argv_put argv (g_strdup (some "-g"))
      argv_put argv (some (printf_i (GET_PLUGIN_INT remminafile "resolution_width" 1024)
        ++ "x" ++ printf_i (GET_PLUGIN_INT remminafile "resolution_height" 768)))

/-- The colour-depth block, lines 218-223. -/
def put_colordepth (remminafile : RemminaFile) (argv : Argv) : Argv :=
  let option_int := GET_PLUGIN_INT remminafile "colordepth" 0
  if option_int ≠ 0 then
    let argv := argv_put argv (g_strdup (some "-a"))
    argv_put argv (some (printf_i option_int))
  else argv

/-- Lines 116-279 of `remmina_plugin_open_connection`: the array `argv` as it stands when
it is handed to `g_spawn_async`, the terminating NULL included. `socket_id` is
`gpdata->socket_id` at that point. -/
def build_argv (remminafile : RemminaFile) (socket_id : Int) : Argv :=
  let argv : Argv := []
  let argv := argv_put argv (g_strdup (some "rdesktop"))
  let argv := put_string_option remminafile "username" "-u" argv
  let argv := put_string_option remminafile "domain" "-d" argv
  let argv := put_password_option remminafile "password" "-p" argv
  let argv := put_string_option remminafile "clientname" "-n" argv
  let argv := put_string_option remminafile "exec" "-s" argv
  let argv := put_string_option remminafile "execpath" "-c" argv
  let argv := put_string_option remminafile "title" "-T" argv
  let argv := put_string_option remminafile "keymap" "-k" argv
  let argv := put_boolean_option remminafile "console" "-0" argv
  let argv := put_boolean_option remminafile "compression" "-z" argv
  let argv := put_boolean_option remminafile "bitmapcaching" "-P" argv
  let argv := put_printf_option remminafile "sharefolder" "-r" "disk:share=" argv
  let argv := put_display_mode remminafile argv
  let argv := put_colordepth remminafile argv
  let argv := put_string_option remminafile "experience" "-x" argv
  let argv := put_printf_option remminafile "sound" "-r" "sound:" argv
  let argv := put_boolean_option remminafile "hidedecorations" "-D" argv
  let argv := put_boolean_option remminafile "nograbkeyboard" "-K" argv
  let argv := put_boolean_option remminafile "noencryption" "-E" argv
  let argv := put_boolean_option remminafile "syncnumlock" "-N" argv
  let argv := put_boolean_option remminafile "rdp4" "-4" argv
  let argv := put_boolean_option remminafile "rdp5" "-5" argv
  let argv := put_boolean_option remminafile "nomousemotion" "-m" argv
  let argv := argv_put argv (g_strdup (some "-X"))
  let argv := argv_put argv (some (printf_i socket_id))
  let option_str := GET_PLUGIN_STRING remminafile "server"
  let argv := argv_put argv option_str
  argv_put argv none

/-! ## The session and the host -/

/-- The fields of `RemminaPluginData` that the plugin reads or writes. -/
structure RemminaPluginData where
  socket_id : Int
  pid : Int
  ready : Bool
  deriving DecidableEq, Repr

/-- A call that leaves the plugin, in the order it is made. `log_printf` keeps the format
string only. -/
inductive HostCall where
  | log_printf (format : String)
  | protocol_plugin_set_width (width : Int)
  | protocol_plugin_set_height (height : Int)
  | gtk_widget_set_size_request (width height : Int)
  | g_spawn_async (argv : List String)
  | protocol_plugin_set_error (message : String)
  | protocol_plugin_emit_signal (signal_name : String)
  | protocol_plugin_close_connection
  | protocol_plugin_register_hostkey
  | gtk_socket_new
  | gtk_widget_show
  | g_signal_connect (detailed_signal : String)
  | gtk_container_add
  deriving DecidableEq, Repr

/-- What `g_spawn_async` answers: its return value, the value it stores through
`child_pid` (if it stores one) and, when it fails, `error->message`. -/
structure SpawnOutcome where
  ret : Bool
  child_pid : Option Int
  error_message : String

/-- What the surroundings answer during `remmina_plugin_open_connection`: the profile
returned by `protocol_plugin_get_file`, the window id returned by `gtk_socket_get_id` for
`gpdata->socket` (as the `gint` that the assignment to `gpdata->socket_id` stores; X window
ids leave the top three of their 32 bits clear, so the stored value is the id), and the
outcome of `g_spawn_async` on a given argument vector. -/
structure Host where
  remminafile : RemminaFile
  gtk_socket_get_id : Int
  g_spawn_async : List String → SpawnOutcome

/-- The result of `remmina_plugin_open_connection`: the returned `gboolean`, the plugin
data afterwards, and the calls made. -/
structure OpenResult where
  ret : Bool
  gpdata : RemminaPluginData
  calls : List HostCall

/-- The function `remmina_plugin_open_connection`, lines 82-301. -/
def remmina_plugin_open_connection (host : Host) (gpdata : RemminaPluginData) : OpenResult :=
  let calls := [HostCall.log_printf "[%s] remmina_plugin_open_connection\n"]
  let remminafile := host.remminafile
  let entered : RemminaPluginData × List HostCall :=
    if GET_PLUGIN_BOOLEAN remminafile "detached" = 0 then
      ({ gpdata with socket_id := host.gtk_socket_get_id },
        calls ++ [HostCall.protocol_plugin_set_width 640,
          HostCall.protocol_plugin_set_height 480,
          HostCall.gtk_widget_set_size_request 640 480])
    else (gpdata, calls)
  let gpdata := entered.1
  let calls := entered.2
  let argv := build_argv remminafile gpdata.socket_id
  let calls := calls ++ [HostCall.log_printf "[RDESKTOP] starting rdesktop\n"]
  let outcome := host.g_spawn_async (argv_strings argv)
  let calls := calls ++ [HostCall.g_spawn_async (argv_strings argv)]
  let gpdata : RemminaPluginData :=
    match outcome.child_pid with
    | some pid => { gpdata with pid := pid }
    | none => gpdata
  let calls := calls ++ [HostCall.log_printf "[RDESKTOP] started rdesktop with pid %d\n"]
  let calls :=
    if outcome.ret = false then
      calls ++ [HostCall.protocol_plugin_set_error outcome.error_message]
    else calls
  if GET_PLUGIN_BOOLEAN remminafile "detached" = 0 then
    { ret := true, gpdata := gpdata,
      calls := calls ++ [HostCall.log_printf "[RDESKTOP] attached window to socket %d\n"] }
  else
    { ret := false, gpdata := gpdata, calls := calls }

/-- The socket id with which the array is built: refreshed from the socket widget when
attached, the stored one when detached. -/
def socket_id_at_build (host : Host) (gpdata : RemminaPluginData) : Int :=
  if GET_PLUGIN_BOOLEAN host.remminafile "detached" = 0
  then host.gtk_socket_get_id else gpdata.socket_id

/-! ## Observations on the calls made -/

/-- The argument vectors of the `g_spawn_async` calls, in order. -/
def spawn_requests (calls : List HostCall) : List (List String) :=
  calls.filterMap fun call =>
    match call with
    | HostCall.g_spawn_async argv => some argv
    | _ => none

/-- The messages of the `protocol_plugin_set_error` calls, in order. -/
def error_reports (calls : List HostCall) : List String :=
  calls.filterMap fun call =>
    match call with
    | HostCall.protocol_plugin_set_error message => some message
    | _ => none

/-! ## The token sequence in the words of the specification -/

/-- Spec side, rows "`-u <value>`" and alike: the flag followed by the value when the field
is present, nothing otherwise. -/
def spec_value_tokens (flag : String) (value : Option String) : List String :=
  match value with
  | some v => [flag, v]
  | none => []

/-- Spec side, boolean rows: the flag when the field is true, nothing otherwise. -/
def spec_flag_tokens (flag : String) (value : Int) : List String :=
  if value = 0 then [] else [flag]

/-- Spec side, rows fullscreen / else seamlessrdp / else (default): `-f`, or `-A`, or
`-g <width>x<height>` with the defaults 1024 and 768. -/
def spec_display_tokens (remminafile : RemminaFile) : List String :=
  if file_get_int remminafile "fullscreen" 0 ≠ 0 then ["-f"]
  else if file_get_int remminafile "seamlessrdp" 0 ≠ 0 then ["-A"]
  else ["-g", toString (file_get_int remminafile "resolution_width" 1024) ++ "x"
    ++ toString (file_get_int remminafile "resolution_height" 768)]

/-- Spec side: the rows of the mapping table above the display-mode rows, in the order of
the table. -/
def spec_tokens_before_display (remminafile : RemminaFile) : List String :=
  spec_value_tokens "-u" (file_get_string remminafile "username")
  ++ spec_value_tokens "-d" (file_get_string remminafile "domain")
  ++ spec_value_tokens "-p" (file_get_secret remminafile "password")
  ++ spec_value_tokens "-n" (file_get_string remminafile "clientname")
  ++ spec_value_tokens "-s" (file_get_string remminafile "exec")
  ++ spec_value_tokens "-c" (file_get_string remminafile "execpath")
  ++ spec_value_tokens "-T" (file_get_string remminafile "title")
  ++ spec_value_tokens "-k" (file_get_string remminafile "keymap")
  ++ spec_flag_tokens "-0" (file_get_int remminafile "console" 0)
  ++ spec_flag_tokens "-z" (file_get_int remminafile "compression" 0)
  ++ spec_flag_tokens "-P" (file_get_int remminafile "bitmapcaching" 0)
  ++ spec_value_tokens "-r" ((file_get_string remminafile "sharefolder").map ("disk:share=" ++ ·))

/-- Spec side: the rows of the mapping table below the display-mode rows and above `-X`,
in the order of the table. -/
def spec_tokens_after_display (remminafile : RemminaFile) : List String :=
  (if file_get_int remminafile "colordepth" 0 = 0 then []
    else ["-a", toString (file_get_int remminafile "colordepth" 0)])
  ++ spec_value_tokens "-x" (file_get_string remminafile "experience")
  ++ spec_value_tokens "-r" ((file_get_string remminafile "sound").map ("sound:" ++ ·))
  ++ spec_flag_tokens "-D" (file_get_int remminafile "hidedecorations" 0)
  ++ spec_flag_tokens "-K" (file_get_int remminafile "nograbkeyboard" 0)
  ++ spec_flag_tokens "-E" (file_get_int remminafile "noencryption" 0)
  ++ spec_flag_tokens "-N" (file_get_int remminafile "syncnumlock" 0)
  ++ spec_flag_tokens "-4" (file_get_int remminafile "rdp4" 0)
  ++ spec_flag_tokens "-5" (file_get_int remminafile "rdp5" 0)
  ++ spec_flag_tokens "-m" (file_get_int remminafile "nomousemotion" 0)

/-- Spec side: the tokens of the mapping table between the client name and `-X`, in the
order of the table. -/
def spec_option_tokens (remminafile : RemminaFile) : List String :=
  spec_tokens_before_display remminafile ++ spec_display_tokens remminafile
    ++ spec_tokens_after_display remminafile

/-- Spec side: the whole token sequence of the mapping table, for an attached session
with the given socket id and server. -/
def spec_token_sequence (remminafile : RemminaFile) (socket_id : Int) (server : String) :
    List String :=
  ["rdesktop"] ++ spec_option_tokens remminafile ++ ["-X", toString socket_id] ++ [server]

/-- Spec side: the geometry token of a profile, `<w>x<h>` with `w` the stored width, else
1024, and `h` the stored height, else 768, each in signed decimal. -/
def spec_geometry (remminafile : RemminaFile) : String :=
  toString ((remminafile.ints "resolution_width").getD 1024) ++ "x"
    ++ toString ((remminafile.ints "resolution_height").getD 768)

/-! ## Where a token can come from -/

/-- The flags that the option blocks other than the display-mode block can write. -/
def option_flags : List String :=
  ["-u", "-d", "-p", "-n", "-s", "-c", "-T", "-k", "-0", "-z", "-P", "-r", "-a", "-x",
    "-D", "-K", "-E", "-N", "-4", "-5", "-m"]

/-- Where a token written by an option block other than the display-mode block can come
from: a flag, a string or secret of the profile passed verbatim, a string of the profile
behind `disk:share=` or `sound:`, or the rendering of the colour depth. -/
def plain_token (remminafile : RemminaFile) (token : String) : Prop :=
  token ∈ option_flags
    ∨ (∃ key, file_get_string remminafile key = some token)
    ∨ (∃ key, file_get_secret remminafile key = some token)
    ∨ (∃ str, token = "disk:share=" ++ str)
    ∨ (∃ str, token = "sound:" ++ str)
    ∨ token = toString (file_get_int remminafile "colordepth" 0)

/-! ## Concrete profiles -/

/-- A profile with most options set, attached (detached reads 0). -/
def profile_full : RemminaFile where
  strings := fun key =>
    if key = "server" then some "rdp.example.org"
    else if key = "username" then some "alice"
    else if key = "domain" then some "CORP"
    else if key = "keymap" then some "en-us"
    else if key = "sharefolder" then some "media"
    else if key = "experience" then some "l"
    else if key = "sound" then some "remote"
    else none
  secrets := fun key => if key = "password" then some "s3cret" else none
  ints := fun key =>
    if key = "compression" then some 1
    else if key = "colordepth" then some 16
    else if key = "resolution_width" then some 800
    else if key = "syncnumlock" then some 1
    else if key = "nomousemotion" then some 1
    else none

/-- A host around `profile_full` whose spawn succeeds with pid 4242. -/
def host_full : Host where
  remminafile := profile_full
  gtk_socket_get_id := 58720263
  g_spawn_async := fun _ => { ret := true, child_pid := some 4242, error_message := "" }

/-- The plugin data as `remmina_plugin_init` leaves it (`g_new0`: all fields zero). -/
def gpdata_init : RemminaPluginData := { socket_id := 0, pid := 0, ready := false }

/-- A profile in which only `server` is set. -/
def profile_server_only : RemminaFile where
  strings := fun key => if key = "server" then some "rdp.example.org" else none
  secrets := fun _ => none
  ints := fun _ => none

/-- A host around `profile_server_only` whose spawn succeeds with pid 4242. -/
def host_server_only : Host where
  remminafile := profile_server_only
  gtk_socket_get_id := 58720263
  g_spawn_async := fun _ => { ret := true, child_pid := some 4242, error_message := "" }

/-- A profile with fullscreen on, and with seamlessrdp and a resolution set as well. -/
def profile_fullscreen : RemminaFile where
  strings := fun key =>
    if key = "server" then some "rdp.example.org"
    else if key = "username" then some "alice" else none
  secrets := fun _ => none
  ints := fun key =>
    if key = "fullscreen" then some 1
    else if key = "seamlessrdp" then some 1
    else if key = "resolution_width" then some 800
    else if key = "resolution_height" then some 600
    else none

/-- A profile with seamlessrdp on and the user name `-A`. -/
def profile_seamless_dash : RemminaFile where
  strings := fun key =>
    if key = "server" then some "rdp.example.org"
    else if key = "username" then some "-A" else none
  secrets := fun _ => none
  ints := fun key => if key = "seamlessrdp" then some 1 else none

/-- A profile with seamlessrdp on, fullscreen off, and a resolution set as well. -/
def profile_seamless : RemminaFile where
  strings := fun key =>
    if key = "server" then some "rdp.example.org"
    else if key = "username" then some "alice" else none
  secrets := fun _ => none
  ints := fun key =>
    if key = "seamlessrdp" then some 1
    else if key = "resolution_width" then some 800
    else if key = "resolution_height" then some 600
    else none

/-- A profile with only the resolution height set (and a negative one), next to the
server. -/
def profile_height_only : RemminaFile where
  strings := fun key => if key = "server" then some "rdp.example.org" else none
  secrets := fun _ => none
  ints := fun key => if key = "resolution_height" then some (-600) else none

/-- A profile with nothing set, not even the server. -/
def profile_empty : RemminaFile where
  strings := fun _ => none
  secrets := fun _ => none
  ints := fun _ => none

/-- A host around `profile_empty` whose spawn fails. -/
def host_empty : Host where
  remminafile := profile_empty
  gtk_socket_get_id := 58720263
  g_spawn_async := fun _ =>
    { ret := false, child_pid := none,
      error_message := "Failed to execute child process (No such file or directory)" }

/-- A profile with `detached` on and the server set, nothing else. -/
def profile_detached : RemminaFile where
  strings := fun key => if key = "server" then some "rdp.example.org" else none
  secrets := fun _ => none
  ints := fun key => if key = "detached" then some 1 else none

/-- A host around `profile_detached` whose spawn succeeds with pid 4242. -/
def host_detached : Host where
  remminafile := profile_detached
  gtk_socket_get_id := 58720263
  g_spawn_async := fun _ => { ret := true, child_pid := some 4242, error_message := "" }

/-! ## The lifecycle callbacks -/

/-- The result of a callback that returns nothing: the plugin data afterwards and the calls
made. -/
structure CallbackResult where
  gpdata : RemminaPluginData
  calls : List HostCall

/-- The function `remmina_plugin_init`, lines 66-80. The plugin data is allocated with
`g_new0`, so every field starts as zero, and is attached to the widget; the socket widget is
created, registered, shown, wired to the two handlers and added to the widget. -/
def remmina_plugin_init : CallbackResult :=
  let calls := [HostCall.log_printf "[%s] remmina_plugin_init\n"]
  let gpdata : RemminaPluginData := { socket_id := 0, pid := 0, ready := false }
  let calls := calls ++ [HostCall.gtk_socket_new]
  let calls := calls ++ [HostCall.protocol_plugin_register_hostkey]
  let calls := calls ++ [HostCall.gtk_widget_show]
  let calls := calls ++ [HostCall.g_signal_connect "plug-added"]
  let calls := calls ++ [HostCall.g_signal_connect "plug-removed"]
  let calls := calls ++ [HostCall.gtk_container_add]
  { gpdata := gpdata, calls := calls }

/-- The handler `remmina_plugin_on_plug_added`, lines 50-58. -/
def remmina_plugin_on_plug_added (gpdata : RemminaPluginData) : CallbackResult :=
  let calls := [HostCall.log_printf "[%s] remmina_plugin_on_plug_added socket %d\n"]
  let calls := calls ++ [HostCall.protocol_plugin_emit_signal "connect"]
  let gpdata := { gpdata with ready := true }
  { gpdata := gpdata, calls := calls }

/-- The handler `remmina_plugin_on_plug_removed`, lines 60-64. It does not look at the
plugin data. -/
def remmina_plugin_on_plug_removed (gpdata : RemminaPluginData) : CallbackResult :=
  let calls := [HostCall.log_printf "[%s] remmina_plugin_on_plug_removed\n"]
  let calls := calls ++ [HostCall.protocol_plugin_close_connection]
  { gpdata := gpdata, calls := calls }

/-- The function `remmina_plugin_close_connection`, lines 303-308. -/
def remmina_plugin_close_connection (gpdata : RemminaPluginData) : OpenResult :=
  let calls := [HostCall.log_printf "[%s] remmina_plugin_close_connection\n"]
  let calls := calls ++ [HostCall.protocol_plugin_emit_signal "disconnect"]
  { ret := false, gpdata := gpdata, calls := calls }

/-- The function `remmina_plugin_query_feature`, lines 310-314. The feature descriptor is a
type of the host; the function does not look at it. -/
def remmina_plugin_query_feature {RemminaProtocolFeature : Type} (gpdata : RemminaPluginData)
    (_feature : RemminaProtocolFeature) : OpenResult :=
  let calls := [HostCall.log_printf "[%s] remmina_plugin_query_feature\n"]
  { ret := false, gpdata := gpdata, calls := calls }

/-- The function `remmina_plugin_call_feature`, lines 316-320. -/
def remmina_plugin_call_feature {RemminaProtocolFeature : Type} (gpdata : RemminaPluginData)
    (_feature : RemminaProtocolFeature) : CallbackResult :=
  let calls := [HostCall.log_printf "[%s] remmina_plugin_call_feature\n"]
  { gpdata := gpdata, calls := calls }

/-- The signals emitted with `protocol_plugin_emit_signal`, in order. -/
def emitted_signals (calls : List HostCall) : List String :=
  calls.filterMap fun call =>
    match call with
    | HostCall.protocol_plugin_emit_signal signal_name => some signal_name
    | _ => none

/-- The number of `protocol_plugin_close_connection` calls. -/
def close_requests (calls : List HostCall) : Nat :=
  (calls.filter fun call =>
    match call with
    | HostCall.protocol_plugin_close_connection => true
    | _ => false).length

/-- The widths requested with `protocol_plugin_set_width`, in order. -/
def width_requests (calls : List HostCall) : List Int :=
  calls.filterMap fun call =>
    match call with
    | HostCall.protocol_plugin_set_width width => some width
    | _ => none

/-- The heights requested with `protocol_plugin_set_height`, in order. -/
def height_requests (calls : List HostCall) : List Int :=
  calls.filterMap fun call =>
    match call with
    | HostCall.protocol_plugin_set_height height => some height
    | _ => none

/-- What can happen to a session: the host calls one of the five entry points, or the socket
widget fires one of the two signals wired by `remmina_plugin_init`. An `open_connection`
carries the answers of the surroundings during that call. -/
inductive LifecycleEvent where
  | init
  | open_connection (host : Host)
  | plug_added
  | plug_removed
  | close_connection
  | query_feature
  | call_feature

/-- One event on the plugin data: the plugin data afterwards and the calls made. -/
def lifecycle_step (gpdata : RemminaPluginData) : LifecycleEvent → CallbackResult
  | LifecycleEvent.init => remmina_plugin_init
  | LifecycleEvent.open_connection host =>
    { gpdata := (remmina_plugin_open_connection host gpdata).gpdata
      calls := (remmina_plugin_open_connection host gpdata).calls }
  | LifecycleEvent.plug_added => remmina_plugin_on_plug_added gpdata
  | LifecycleEvent.plug_removed => remmina_plugin_on_plug_removed gpdata
  | LifecycleEvent.close_connection =>
    { gpdata := (remmina_plugin_close_connection gpdata).gpdata
      calls := (remmina_plugin_close_connection gpdata).calls }
  | LifecycleEvent.query_feature =>
    { gpdata := (remmina_plugin_query_feature gpdata ()).gpdata
      calls := (remmina_plugin_query_feature gpdata ()).calls }
  | LifecycleEvent.call_feature => remmina_plugin_call_feature gpdata ()

/-- A sequence of events, one after the other, with all the calls made. -/
def lifecycle_run (gpdata : RemminaPluginData) : List LifecycleEvent → CallbackResult
  | [] => { gpdata := gpdata, calls := [] }
  | event :: events =>
    { gpdata := (lifecycle_run (lifecycle_step gpdata event).gpdata events).gpdata
      calls := (lifecycle_step gpdata event).calls
        ++ (lifecycle_run (lifecycle_step gpdata event).gpdata events).calls }

/-- A session that has been initialised and opened, on which plug-removed fires twice. -/
def events_plug_removed_twice : List LifecycleEvent :=
  [LifecycleEvent.init, LifecycleEvent.open_connection host_full,
    LifecycleEvent.plug_removed, LifecycleEvent.plug_removed]

/-! ## The settings table -/

/-- Modelled from the spec: the type tag of a settings entry, "from {SERVER, TEXT, PASSWORD,
CHECK, SELECT, COMBO, FOLDER, RESOLUTION}"; the enumeration is declared by the host, and
`END` closes a table. -/
inductive RemminaProtocolSettingType where
  | REMMINA_PROTOCOL_SETTING_TYPE_END
  | REMMINA_PROTOCOL_SETTING_TYPE_SERVER
  | REMMINA_PROTOCOL_SETTING_TYPE_PASSWORD
  | REMMINA_PROTOCOL_SETTING_TYPE_RESOLUTION
  | REMMINA_PROTOCOL_SETTING_TYPE_TEXT
  | REMMINA_PROTOCOL_SETTING_TYPE_COMBO
  | REMMINA_PROTOCOL_SETTING_TYPE_SELECT
  | REMMINA_PROTOCOL_SETTING_TYPE_CHECK
  | REMMINA_PROTOCOL_SETTING_TYPE_FOLDER
  deriving DecidableEq, Repr

/-- Modelled from the spec: a settings entry, "type tag, key, label, default, optional
value-list". The structure `RemminaProtocolSetting` is declared by the host; its members are
taken in the order of the initialisers of the table, the fourth being the boolean that the
spec reads as the default of a toggle. In the advanced table the fifth member is NULL or a
comma-separated string and the sixth is NULL. -/
structure RemminaProtocolSetting where
  setting_type : RemminaProtocolSettingType
  name : Option String
  label : Option String
  default_flag : Bool
  opt1 : Option String
  opt2 : Option String
  deriving DecidableEq, Repr

open RemminaProtocolSettingType in
/-- The table `remmina_plugin_advanced_settings`, lines 384-406. -/
def remmina_plugin_advanced_settings : List RemminaProtocolSetting :=
  [ { setting_type := REMMINA_PROTOCOL_SETTING_TYPE_TEXT, name := some "title",
      label := some "Window title", default_flag := false, opt1 := none, opt2 := none },
    { setting_type := REMMINA_PROTOCOL_SETTING_TYPE_TEXT, name := some "clientname",
      label := some "Client name", default_flag := false, opt1 := none, opt2 := none },
    { setting_type := REMMINA_PROTOCOL_SETTING_TYPE_TEXT, name := some "exec",
      label := some "Startup program", default_flag := false, opt1 := none, opt2 := none },
    { setting_type := REMMINA_PROTOCOL_SETTING_TYPE_TEXT, name := some "execpath",
      label := some "Startup path", default_flag := false, opt1 := none, opt2 := none },
    { setting_type := REMMINA_PROTOCOL_SETTING_TYPE_COMBO, name := some "keymap",
      label := some "Keyboard map", default_flag := false,
      opt1 := some ("ar,cs,da,de,de-ch,en-dv,en-gb,en-us,es,et,fi,fo,fr,fr-be,fr-ca,fr-ch,"
        ++ "he,hr,hu,is,it,ja,ko,lt,lv,mk,nl,nl-be,no,pl,pt,pt-br,ru,sl,sv,th,tr"),
      opt2 := none },
    { setting_type := REMMINA_PROTOCOL_SETTING_TYPE_CHECK, name := some "fullscreen",
      label := some "Fullscreen", default_flag := true, opt1 := none, opt2 := none },
    { setting_type := REMMINA_PROTOCOL_SETTING_TYPE_CHECK, name := some "seamlessrdp",
      label := some "Seamless RDP", default_flag := false, opt1 := none, opt2 := none },
    { setting_type := REMMINA_PROTOCOL_SETTING_TYPE_CHECK, name := some "console",
      label := some "Attach to console (Windows 2003 / 2003 R2)", default_flag := false,
      opt1 := none, opt2 := none },
    { setting_type := REMMINA_PROTOCOL_SETTING_TYPE_CHECK, name := some "compression",
      label := some "RDP datastream compression", default_flag := true, opt1 := none,
      opt2 := none },
    { setting_type := REMMINA_PROTOCOL_SETTING_TYPE_CHECK, name := some "bitmapcaching",
      label := some "Bitmap caching", default_flag := false, opt1 := none, opt2 := none },
    { setting_type := REMMINA_PROTOCOL_SETTING_TYPE_CHECK, name := some "nomousemotion",
      label := some "Don't send mouse motion events", default_flag := true, opt1 := none,
      opt2 := none },
    { setting_type := REMMINA_PROTOCOL_SETTING_TYPE_CHECK, name := some "hidedecorations",
      label := some "Hide WM decorations", default_flag := false, opt1 := none,
      opt2 := none },
    { setting_type := REMMINA_PROTOCOL_SETTING_TYPE_CHECK, name := some "detached",
      label := some "Detached window", default_flag := true, opt1 := none, opt2 := none },
    { setting_type := REMMINA_PROTOCOL_SETTING_TYPE_CHECK, name := some "nograbkeyboard",
      label := some "Don't grab keyboard", default_flag := false, opt1 := none,
      opt2 := none },
    { setting_type := REMMINA_PROTOCOL_SETTING_TYPE_CHECK, name := some "rdp4",
      label := some "Force RDP version 4", default_flag := true, opt1 := none,
      opt2 := none },
    { setting_type := REMMINA_PROTOCOL_SETTING_TYPE_CHECK, name := some "rdp5",
      label := some "Force RDP version 5", default_flag := false, opt1 := none,
      opt2 := none },
    { setting_type := REMMINA_PROTOCOL_SETTING_TYPE_CHECK, name := some "syncnumlock",
      label := some "Numlock syncronization", default_flag := true, opt1 := none,
      opt2 := none },
    { setting_type := REMMINA_PROTOCOL_SETTING_TYPE_CHECK, name := some "noencryption",
      label := some "Disable encryption", default_flag := false, opt1 := none,
      opt2 := none },
    { setting_type := REMMINA_PROTOCOL_SETTING_TYPE_END, name := none, label := none,
      default_flag := false, opt1 := none, opt2 := none } ]

/-- The entries of a table that are of type CHECK, in table order. -/
def check_entries (table : List RemminaProtocolSetting) : List RemminaProtocolSetting :=
  table.filter fun entry =>
    entry.setting_type = RemminaProtocolSettingType.REMMINA_PROTOCOL_SETTING_TYPE_CHECK

/-- The entry for `fullscreen` as it stands in the advanced table. -/
def entry_fullscreen : RemminaProtocolSetting :=
  { setting_type := RemminaProtocolSettingType.REMMINA_PROTOCOL_SETTING_TYPE_CHECK,
    name := some "fullscreen", label := some "Fullscreen", default_flag := true,
    opt1 := none, opt2 := none }

/-! ## The size of the array -/

/-- The number of slots of the local array: `gchar *argv[50]`, line 98. -/
def ARGV_SLOTS : Nat := 50

/-- The statement `argv[argc++] = str` on the array of `ARGV_SLOTS` slots: nothing when the
index `argc` lies outside the array. -/
def argv_put_checked (argv : Argv) (str : Option String) : Option Argv :=
  if argc argv < ARGV_SLOTS then some (argv_put argv str) else none

/-- The writes of a list of slots, one after the other, each with the bounds check. -/
def argv_put_all_checked : Argv → List (Option String) → Option Argv
  | argv, [] => some argv
  | argv, str :: rest =>
    match argv_put_checked argv str with
    | some argv => argv_put_all_checked argv rest
    | none => none

/-- A profile with fullscreen on and nothing else, not even the server. -/
def profile_fewest : RemminaFile where
  strings := fun _ => none
  secrets := fun _ => none
  ints := fun key => if key = "fullscreen" then some 1 else none

/-- A profile in which every string is `v`, every secret is `v`, every integer is 1 except
fullscreen and seamlessrdp, which are off. -/
def profile_most : RemminaFile where
  strings := fun _ => some "v"
  secrets := fun _ => some "v"
  ints := fun key =>
    if key = "fullscreen" then some 0 else if key = "seamlessrdp" then some 0 else some 1

/-! ## The stored profile and what the accessors answer -/

/-- Modelled from the spec: the profile as the host stores it, "a mapping from option-name
(string key) to value (string, boolean, or integer)"; a string or a secret may be stored
as the empty string. -/
structure ConnectionProfile where
  strings : String → Option String
  secrets : String → Option String
  ints : String → Option Int

/-- Modelled from the spec: "absent/empty fields are simply omitted". A field that is
stored as the empty string is answered like one that is not stored. -/
def present_value (value : Option String) : Option String :=
  match value with
  | some str => if str = "" then none else some str
  | none => none

/-- Modelled from the spec: what the host's accessors answer about a stored profile. A
string or secret that is absent or empty is answered with NULL; integers are answered as
stored. The accessors are code of the host, not of the plugin. -/
def remminafile_of_profile (profile : ConnectionProfile) : RemminaFile where
  strings := fun key => present_value (profile.strings key)
  secrets := fun key => present_value (profile.secrets key)
  ints := profile.ints

/-- A stored value that is absent or is the empty string. -/
def absent_or_empty (value : Option String) : Prop :=
  value = none ∨ value = some ""

/-- Spec side: a row of the mapping table for a string option, left out altogether when
its key is `skip`. -/
def spec_row (skip key flag : String) (value : Option String) : List String :=
  if key = skip then [] else spec_value_tokens flag value

/-- Spec side: the tokens of the mapping table between the client name and `-X` with the
row of the string option `skip` left out. -/
def spec_option_tokens_skipping (remminafile : RemminaFile) (skip : String) : List String :=
  spec_row skip "username" "-u" (file_get_string remminafile "username")
  ++ spec_row skip "domain" "-d" (file_get_string remminafile "domain")
  ++ spec_row skip "password" "-p" (file_get_secret remminafile "password")
  ++ spec_row skip "clientname" "-n" (file_get_string remminafile "clientname")
  ++ spec_row skip "exec" "-s" (file_get_string remminafile "exec")
  ++ spec_row skip "execpath" "-c" (file_get_string remminafile "execpath")
  ++ spec_row skip "title" "-T" (file_get_string remminafile "title")
  ++ spec_row skip "keymap" "-k" (file_get_string remminafile "keymap")
  ++ spec_flag_tokens "-0" (file_get_int remminafile "console" 0)
  ++ spec_flag_tokens "-z" (file_get_int remminafile "compression" 0)
  ++ spec_flag_tokens "-P" (file_get_int remminafile "bitmapcaching" 0)
  ++ spec_row skip "sharefolder" "-r"
      ((file_get_string remminafile "sharefolder").map ("disk:share=" ++ ·))
  ++ spec_display_tokens remminafile
  ++ (if file_get_int remminafile "colordepth" 0 = 0 then []
      else ["-a", toString (file_get_int remminafile "colordepth" 0)])
  ++ spec_row skip "experience" "-x" (file_get_string remminafile "experience")
  ++ spec_row skip "sound" "-r" ((file_get_string remminafile "sound").map ("sound:" ++ ·))
  ++ spec_flag_tokens "-D" (file_get_int remminafile "hidedecorations" 0)
  ++ spec_flag_tokens "-K" (file_get_int remminafile "nograbkeyboard" 0)
  ++ spec_flag_tokens "-E" (file_get_int remminafile "noencryption" 0)
  ++ spec_flag_tokens "-N" (file_get_int remminafile "syncnumlock" 0)
  ++ spec_flag_tokens "-4" (file_get_int remminafile "rdp4" 0)
  ++ spec_flag_tokens "-5" (file_get_int remminafile "rdp5" 0)
  ++ spec_flag_tokens "-m" (file_get_int remminafile "nomousemotion" 0)

/-- The vector handed to the spawn call holds no token for the string option `key`: it is
the client name, the rows of the table without the row of `key`, `-X` with the socket id,
and the server when there is one. -/
def writes_nothing_for (remminafile : RemminaFile) (key : String) : Prop :=
  ∀ socket_id : Int,
    argv_strings (build_argv remminafile socket_id)
      = ["rdesktop"] ++ spec_option_tokens_skipping remminafile key
        ++ ["-X", toString socket_id] ++ (file_get_string remminafile "server").toList

/-- A stored profile whose user name is the empty string and whose other options, the
server apart, are absent. -/
def stored_empty_username : ConnectionProfile where
  strings := fun key =>
    if key = "server" then some "rdp.example.org"
    else if key = "username" then some "" else none
  secrets := fun _ => none
  ints := fun _ => none

/-! ## How each block extends the array -/

theorem argv_strings_map_some (xs : List String) (rest : Argv) :
    argv_strings (xs.map some ++ rest) = xs ++ argv_strings rest := by
  induction xs with
  | nil => rfl
  | cons x xs ih => simp [argv_strings, ih]

theorem put_string_option_append (f : RemminaFile) (key flag : String) (argv : Argv) :
    put_string_option f key flag argv
      = argv ++ (spec_value_tokens flag (file_get_string f key)).map some := by
  unfold put_string_option GET_PLUGIN_STRING g_strdup argv_put spec_value_tokens
  cases file_get_string f key <;> simp

theorem put_password_option_append (f : RemminaFile) (key flag : String) (argv : Argv) :
    put_password_option f key flag argv
      = argv ++ (spec_value_tokens flag (file_get_secret f key)).map some := by
  unfold put_password_option GET_PLUGIN_PASSWORD g_strdup argv_put spec_value_tokens
  cases file_get_secret f key <;> simp

theorem put_printf_option_append (f : RemminaFile) (key flag pre : String) (argv : Argv) :
    put_printf_option f key flag pre argv
      = argv ++ (spec_value_tokens flag ((file_get_string f key).map (pre ++ ·))).map some := by
  unfold put_printf_option GET_PLUGIN_STRING g_strdup argv_put spec_value_tokens
  cases file_get_string f key <;> simp

theorem put_boolean_option_append (f : RemminaFile) (key flag : String) (argv : Argv) :
    put_boolean_option f key flag argv
      = argv ++ (spec_flag_tokens flag (file_get_int f key 0)).map some := by
  unfold put_boolean_option GET_PLUGIN_BOOLEAN g_strdup argv_put spec_flag_tokens
  by_cases h : file_get_int f key 0 = 0 <;> simp [h]

theorem put_display_mode_append (f : RemminaFile) (argv : Argv) :
    put_display_mode f argv = argv ++ (spec_display_tokens f).map some := by
  unfold put_display_mode GET_PLUGIN_BOOLEAN GET_PLUGIN_INT g_strdup argv_put
    spec_display_tokens printf_i
  by_cases h : file_get_int f "fullscreen" 0 = 0 <;>
    by_cases h2 : file_get_int f "seamlessrdp" 0 = 0 <;> simp [h, h2]

theorem put_colordepth_append (f : RemminaFile) (argv : Argv) :
    put_colordepth f argv
      = argv ++ (if file_get_int f "colordepth" 0 = 0 then []
          else ["-a", toString (file_get_int f "colordepth" 0)]).map some := by
  unfold put_colordepth GET_PLUGIN_INT g_strdup argv_put printf_i
  by_cases h : file_get_int f "colordepth" 0 = 0 <;> simp [h]

/-- The array built by lines 116-279, block by block: the client name, the option tokens,
`-X` and the socket id, then the server slot and the terminating NULL. -/
theorem build_argv_eq (f : RemminaFile) (socket_id : Int) :
    build_argv f socket_id
      = (["rdesktop"] ++ spec_option_tokens f ++ ["-X", toString socket_id]).map some
        ++ [file_get_string f "server", none] := by
  simp only [build_argv, put_string_option_append, put_password_option_append,
    put_printf_option_append, put_boolean_option_append, put_display_mode_append,
    put_colordepth_append, spec_option_tokens, spec_tokens_before_display,
    spec_tokens_after_display, argv_put, g_strdup, GET_PLUGIN_STRING,
    printf_i, List.map_append, List.append_assoc, List.nil_append, List.map_cons,
    List.map_nil, List.cons_append, List.singleton_append]

/-! ## What `remmina_plugin_open_connection` does with the array -/

/-- The run of `remmina_plugin_open_connection` when `detached` reads as zero. -/
theorem open_connection_attached (host : Host) (gpdata : RemminaPluginData)
    (h : GET_PLUGIN_BOOLEAN host.remminafile "detached" = 0) :
    remmina_plugin_open_connection host gpdata
      = { ret := true
          gpdata :=
            match (host.g_spawn_async (argv_strings (build_argv host.remminafile
              (host.gtk_socket_get_id)))).child_pid with
            | some pid =>
              { socket_id := host.gtk_socket_get_id, pid := pid, ready := gpdata.ready }
            | none =>
              { socket_id := host.gtk_socket_get_id, pid := gpdata.pid,
                ready := gpdata.ready }
          calls :=
            (if (host.g_spawn_async (argv_strings (build_argv host.remminafile
                (host.gtk_socket_get_id)))).ret = false then
              [HostCall.log_printf "[%s] remmina_plugin_open_connection\n",
                HostCall.protocol_plugin_set_width 640,
                HostCall.protocol_plugin_set_height 480,
                HostCall.gtk_widget_set_size_request 640 480,
                HostCall.log_printf "[RDESKTOP] starting rdesktop\n",
                HostCall.g_spawn_async (argv_strings (build_argv host.remminafile
                  (host.gtk_socket_get_id))),
                HostCall.log_printf "[RDESKTOP] started rdesktop with pid %d\n",
                HostCall.protocol_plugin_set_error
                  (host.g_spawn_async (argv_strings (build_argv host.remminafile
                    (host.gtk_socket_get_id)))).error_message]
            else
              [HostCall.log_printf "[%s] remmina_plugin_open_connection\n",
                HostCall.protocol_plugin_set_width 640,
                HostCall.protocol_plugin_set_height 480,
                HostCall.gtk_widget_set_size_request 640 480,
                HostCall.log_printf "[RDESKTOP] starting rdesktop\n",
                HostCall.g_spawn_async (argv_strings (build_argv host.remminafile
                  (host.gtk_socket_get_id))),
                HostCall.log_printf "[RDESKTOP] started rdesktop with pid %d\n"])
            ++ [HostCall.log_printf "[RDESKTOP] attached window to socket %d\n"] } := by
  unfold remmina_plugin_open_connection
  simp only [h]
  rfl

/-- The run of `remmina_plugin_open_connection` when `detached` reads as non-zero. -/
theorem open_connection_detached (host : Host) (gpdata : RemminaPluginData)
    (h : GET_PLUGIN_BOOLEAN host.remminafile "detached" ≠ 0) :
    remmina_plugin_open_connection host gpdata
      = { ret := false
          gpdata :=
            match (host.g_spawn_async (argv_strings (build_argv host.remminafile
              gpdata.socket_id))).child_pid with
            | some pid => { gpdata with pid := pid }
            | none => gpdata
          calls :=
            if (host.g_spawn_async (argv_strings (build_argv host.remminafile
                gpdata.socket_id))).ret = false then
              [HostCall.log_printf "[%s] remmina_plugin_open_connection\n",
                HostCall.log_printf "[RDESKTOP] starting rdesktop\n",
                HostCall.g_spawn_async (argv_strings (build_argv host.remminafile
                  gpdata.socket_id)),
                HostCall.log_printf "[RDESKTOP] started rdesktop with pid %d\n",
                HostCall.protocol_plugin_set_error
                  (host.g_spawn_async (argv_strings (build_argv host.remminafile
                    gpdata.socket_id))).error_message]
            else
              [HostCall.log_printf "[%s] remmina_plugin_open_connection\n",
                HostCall.log_printf "[RDESKTOP] starting rdesktop\n",
                HostCall.g_spawn_async (argv_strings (build_argv host.remminafile
                  gpdata.socket_id)),
                HostCall.log_printf "[RDESKTOP] started rdesktop with pid %d\n"] } := by
  unfold remmina_plugin_open_connection
  simp only [h]
  rfl

/-- There is one `g_spawn_async` call, on the strings of the array built from the profile
and the socket id of the plugin data. -/
theorem open_connection_spawn_requests (host : Host) (gpdata : RemminaPluginData) :
    spawn_requests (remmina_plugin_open_connection host gpdata).calls
      = [argv_strings (build_argv host.remminafile (socket_id_at_build host gpdata))] := by
  unfold socket_id_at_build
  by_cases h : GET_PLUGIN_BOOLEAN host.remminafile "detached" = 0
  · rw [open_connection_attached host gpdata h, if_pos h]
    dsimp only
    split <;> rfl
  · rw [open_connection_detached host gpdata h, if_neg h]
    dsimp only
    split <;> rfl

/-- The error reports: the message of the spawn outcome when the spawn failed, none when it
succeeded. -/
theorem open_connection_error_reports (host : Host) (gpdata : RemminaPluginData) :
    error_reports (remmina_plugin_open_connection host gpdata).calls
      = if (host.g_spawn_async (argv_strings (build_argv host.remminafile
            (socket_id_at_build host gpdata)))).ret = false
        then [(host.g_spawn_async (argv_strings (build_argv host.remminafile
            (socket_id_at_build host gpdata)))).error_message]
        else [] := by
  unfold socket_id_at_build
  by_cases h : GET_PLUGIN_BOOLEAN host.remminafile "detached" = 0
  · rw [open_connection_attached host gpdata h, if_pos h]
    dsimp only
    split <;> rfl
  · rw [open_connection_detached host gpdata h, if_neg h]
    dsimp only
    split <;> rfl

/-- The returned `gboolean` is TRUE exactly when `detached` reads as zero. -/
theorem open_connection_ret (host : Host) (gpdata : RemminaPluginData) :
    (remmina_plugin_open_connection host gpdata).ret
      = decide (GET_PLUGIN_BOOLEAN host.remminafile "detached" = 0) := by
  by_cases h : GET_PLUGIN_BOOLEAN host.remminafile "detached" = 0
  · rw [open_connection_attached host gpdata h]; simp only [h, decide_True]
  · rw [open_connection_detached host gpdata h]; simp only [h, decide_False]

/-- The strings of the built array when the server is set. -/
theorem argv_strings_build_argv (f : RemminaFile) (socket_id : Int) (server : String)
    (hserver : file_get_string f "server" = some server) :
    argv_strings (build_argv f socket_id) = spec_token_sequence f socket_id server := by
  rw [build_argv_eq, argv_strings_map_some, hserver]
  simp [argv_strings, spec_token_sequence]

/-- C1. For a profile with detached=false, the server set, and every string option absent
or non-empty, the one argument vector handed to the spawn call is the token sequence of
the mapping table: `rdesktop`, the option tokens in table order, `-X` with the decimal
socket id, and the server. -/
theorem open_connection_token_sequence (host : Host) (gpdata : RemminaPluginData)
    (server : String)
    (hdetached : GET_PLUGIN_BOOLEAN host.remminafile "detached" = 0)
    (hserver : file_get_string host.remminafile "server" = some server)
    (_hstrings : ∀ key value, file_get_string host.remminafile key = some value → value ≠ "")
    (_hsecrets : ∀ key value, file_get_secret host.remminafile key = some value → value ≠ "") :
    spawn_requests (remmina_plugin_open_connection host gpdata).calls
      = [spec_token_sequence host.remminafile host.gtk_socket_get_id server] := by
  rw [open_connection_spawn_requests, socket_id_at_build, if_pos hdetached,
    argv_strings_build_argv _ _ server hserver]

theorem open_connection_token_sequence_witness :
    spec_token_sequence profile_full 58720263 "rdp.example.org"
        = ["rdesktop", "-u", "alice", "-d", "CORP", "-p", "s3cret", "-k", "en-us", "-z",
            "-r", "disk:share=media", "-g", "800x768", "-a", "16", "-x", "l",
            "-r", "sound:remote", "-N", "-m", "-X", "58720263", "rdp.example.org"]
      ∧ spawn_requests (remmina_plugin_open_connection host_full gpdata_init).calls
        = [spec_token_sequence host_full.remminafile host_full.gtk_socket_get_id
            "rdp.example.org"] :=
  ⟨by decide,
    open_connection_token_sequence host_full gpdata_init "rdp.example.org" (by decide)
      (by decide)
      (by
        intro key value h
        simp only [file_get_string, host_full, profile_full] at h
        split_ifs at h <;> (cases h; decide))
      (by
        intro key value h
        simp only [file_get_secret, host_full, profile_full] at h
        split_ifs at h
        cases h
        decide)⟩

/-- The strings of the array built from a profile in which only `server` is set. -/
theorem argv_strings_server_only (f : RemminaFile) (socket_id : Int) (server : String)
    (hserver : f.strings "server" = some server)
    (hstrings : ∀ key, key ≠ "server" → f.strings key = none)
    (hsecrets : ∀ key, f.secrets key = none)
    (hints : ∀ key, f.ints key = none) :
    argv_strings (build_argv f socket_id)
      = ["rdesktop", "-g", "1024x768", "-X", toString socket_id, server] := by
  have hs : ∀ key, key ≠ "server" → file_get_string f key = none := hstrings
  have hi : ∀ key d, file_get_int f key d = d := by
    intro key d
    simp only [file_get_int, hints key]
  have hgeom : toString (1024 : Int) ++ "x" ++ toString (768 : Int) = "1024x768" := by decide
  rw [argv_strings_build_argv f socket_id server hserver]
  simp only [spec_token_sequence, spec_option_tokens, spec_tokens_before_display,
    spec_tokens_after_display, spec_display_tokens, spec_value_tokens,
    spec_flag_tokens, file_get_secret, hsecrets, hi, hgeom,
    hs "username" (by decide), hs "domain" (by decide), hs "clientname" (by decide),
    hs "exec" (by decide), hs "execpath" (by decide), hs "title" (by decide),
    hs "keymap" (by decide), hs "sharefolder" (by decide), hs "experience" (by decide),
    hs "sound" (by decide), Option.map_none', if_true, ne_eq, not_true_eq_false, if_false,
    List.append_nil, List.nil_append, List.cons_append]

/-- C2. For a profile in which only `server` is set, and any socket id, the argument vector
handed to the spawn call is exactly `rdesktop -g 1024x768 -X <socket_id> <server>`, the
socket id being the one of the socket widget, which is also the one stored. -/
theorem open_connection_server_only (host : Host) (gpdata : RemminaPluginData)
    (server : String)
    (hserver : host.remminafile.strings "server" = some server)
    (hstrings : ∀ key, key ≠ "server" → host.remminafile.strings key = none)
    (hsecrets : ∀ key, host.remminafile.secrets key = none)
    (hints : ∀ key, host.remminafile.ints key = none) :
    spawn_requests (remmina_plugin_open_connection host gpdata).calls
        = [["rdesktop", "-g", "1024x768", "-X", toString host.gtk_socket_get_id, server]]
      ∧ (remmina_plugin_open_connection host gpdata).gpdata.socket_id
        = host.gtk_socket_get_id := by
  have hdetached : GET_PLUGIN_BOOLEAN host.remminafile "detached" = 0 := by
    simp only [GET_PLUGIN_BOOLEAN, file_get_int, hints "detached"]
  constructor
  · rw [open_connection_spawn_requests, socket_id_at_build, if_pos hdetached,
      argv_strings_server_only _ _ server hserver hstrings hsecrets hints]
  · rw [open_connection_attached host gpdata hdetached]
    dsimp only
    split <;> rfl

theorem open_connection_server_only_witness :
    spawn_requests (remmina_plugin_open_connection host_server_only gpdata_init).calls
        = [["rdesktop", "-g", "1024x768", "-X", toString host_server_only.gtk_socket_get_id,
            "rdp.example.org"]]
      ∧ (remmina_plugin_open_connection host_server_only gpdata_init).gpdata.socket_id
        = host_server_only.gtk_socket_get_id :=
  open_connection_server_only host_server_only gpdata_init "rdp.example.org" (by decide)
    (by
      intro key hkey
      simp only [host_server_only, profile_server_only, if_neg hkey])
    (by intro key; rfl) (by intro key; rfl)

/-! ## Characters of the printed tokens -/

theorem digitChar_isDigit (d : Nat) (h : d < 10) : (Nat.digitChar d).isDigit = true := by
  interval_cases d <;> decide

theorem toDigitsCore_isDigit (fuel : Nat) :
    ∀ (n : Nat) (ds : List Char), (∀ c ∈ ds, c.isDigit = true) →
      ∀ c ∈ Nat.toDigitsCore 10 fuel n ds, c.isDigit = true := by
  induction fuel with
  | zero => intro n ds hds c hc; exact hds c (by simpa [Nat.toDigitsCore] using hc)
  | succ fuel ih =>
    intro n ds hds c hc
    have hd : (Nat.digitChar (n % 10)).isDigit = true :=
      digitChar_isDigit _ (Nat.mod_lt _ (by decide))
    have hcons : ∀ c ∈ Nat.digitChar (n % 10) :: ds, c.isDigit = true := by
      intro c hc
      rcases List.mem_cons.mp hc with rfl | hc
      · exact hd
      · exact hds c hc
    simp only [Nat.toDigitsCore] at hc
    split at hc
    · exact hcons c hc
    · exact ih _ _ hcons c hc

/-- Every character of a `%i` rendering is the minus sign or a decimal digit. -/
theorem printf_i_chars (value : Int) :
    ∀ c ∈ (toString value).data, c = '-' ∨ c.isDigit = true := by
  intro c hc
  cases value with
  | ofNat m =>
    right
    exact toDigitsCore_isDigit _ _ [] (by simp) c hc
  | negSucc m =>
    have hdata : (toString (Int.negSucc m)).data = '-' :: Nat.toDigits 10 (m + 1) := rfl
    rw [hdata] at hc
    rcases List.mem_cons.mp hc with rfl | hc
    · left; rfl
    · right; exact toDigitsCore_isDigit _ _ [] (by simp) c hc

/-- A `%i` rendering is never a token that holds a character other than the minus sign and
the decimal digits. -/
theorem printf_i_ne_flag (value : Int) (flag : String)
    (hletter : ∃ c ∈ flag.data, c ≠ '-' ∧ c.isDigit = false) : toString value ≠ flag := by
  intro h
  obtain ⟨c, hmem, hminus, hdigit⟩ := hletter
  rw [← h] at hmem
  rcases printf_i_chars value c hmem with h1 | h1
  · exact hminus h1
  · rw [hdigit] at h1; cases h1

theorem printf_literal_ne (pre str token : String) (c : Char) (hc : pre.data.head? = some c)
    (ht : token.data.head? ≠ some c) : pre ++ str ≠ token := by
  intro h
  apply ht
  rw [← h, String.data_append]
  cases hp : pre.data with
  | nil => rw [hp] at hc; cases hc
  | cons a rest => rw [hp] at hc; simpa using hc

/-! ## The strings handed to the spawn call -/

/-- The strings of the built array, for any profile: the server slot contributes its string
when it is set and ends the vector early when it is NULL. -/
theorem argv_strings_build_argv_any (f : RemminaFile) (socket_id : Int) :
    argv_strings (build_argv f socket_id)
      = ["rdesktop"] ++ spec_option_tokens f ++ ["-X", toString socket_id]
        ++ (file_get_string f "server").toList := by
  rw [build_argv_eq, argv_strings_map_some]
  cases file_get_string f "server" <;> simp [argv_strings]

theorem mem_spec_value_tokens {flag token : String} {value : Option String}
    (h : token ∈ spec_value_tokens flag value) : token = flag ∨ value = some token := by
  unfold spec_value_tokens at h
  cases value with
  | none => simp at h
  | some v =>
    simp only [List.mem_cons, List.mem_singleton, List.not_mem_nil, or_false] at h
    rcases h with h | h
    · exact Or.inl h
    · exact Or.inr (by rw [h])

theorem mem_spec_flag_tokens {flag token : String} {value : Int}
    (h : token ∈ spec_flag_tokens flag value) : token = flag := by
  unfold spec_flag_tokens at h
  split at h
  · simp at h
  · simpa using h

/-- Where a token of the rows above the display-mode rows can come from. -/
theorem mem_spec_tokens_before_display {f : RemminaFile} {token : String}
    (h : token ∈ spec_tokens_before_display f) : plain_token f token := by
  unfold spec_tokens_before_display at h
  unfold plain_token
  simp only [List.mem_append, or_assoc] at h
  rcases h with h | h | h | h | h | h | h | h | h | h | h | h
  all_goals first
    | (have h1 := mem_spec_flag_tokens h; left; rw [h1]; decide)
    | (rcases mem_spec_value_tokens h with h1 | h1
       · left; rw [h1]; decide
       · first
         | (right; left; exact ⟨_, h1⟩)
         | (right; right; left; exact ⟨_, h1⟩)
         | (cases hv : file_get_string f "sharefolder" with
            | none => rw [hv] at h1; cases h1
            | some v =>
              rw [hv] at h1
              right; right; right; left
              exact ⟨v, (Option.some.inj h1).symm⟩))

/-- Where a token of the rows below the display-mode rows can come from. -/
theorem mem_spec_tokens_after_display {f : RemminaFile} {token : String}
    (h : token ∈ spec_tokens_after_display f) : plain_token f token := by
  unfold spec_tokens_after_display at h
  unfold plain_token
  simp only [List.mem_append, or_assoc] at h
  rcases h with h | h | h | h | h | h | h | h | h | h
  all_goals first
    | (have h1 := mem_spec_flag_tokens h; left; rw [h1]; decide)
    | (rcases mem_spec_value_tokens h with h1 | h1
       · left; rw [h1]; decide
       · first
         | (right; left; exact ⟨_, h1⟩)
         | (cases hv : file_get_string f "sound" with
            | none => rw [hv] at h1; cases h1
            | some v =>
              rw [hv] at h1
              right; right; right; right; left
              exact ⟨v, (Option.some.inj h1).symm⟩))
    | (split at h
       · simp at h
       · simp only [List.mem_cons, List.mem_singleton, List.not_mem_nil, or_false] at h
         rcases h with h | h
         · left; rw [h]; decide
         · right; right; right; right; right; exact h)

/-- C3, as stated, fails: with detached=true on a freshly initialised session the vector
handed to the spawn call still holds `-X` and the socket-id token `0`. -/
theorem detached_argv_keeps_socket_flag :
    GET_PLUGIN_BOOLEAN host_detached.remminafile "detached" ≠ 0
      ∧ spawn_requests (remmina_plugin_open_connection host_detached gpdata_init).calls
        = [["rdesktop", "-g", "1024x768", "-X", "0", "rdp.example.org"]]
      ∧ "-X" ∈ argv_strings (build_argv host_detached.remminafile gpdata_init.socket_id) := by
  decide

/-- C3, amended. For a profile with detached=true the socket id is not refreshed, the one
vector handed to the spawn call still carries `-X` and the decimal of the stored socket id
after the option tokens and before the server, and the function returns FALSE. -/
theorem open_connection_detached_argv (host : Host) (gpdata : RemminaPluginData)
    (hdetached : GET_PLUGIN_BOOLEAN host.remminafile "detached" ≠ 0) :
    spawn_requests (remmina_plugin_open_connection host gpdata).calls
        = [["rdesktop"] ++ spec_option_tokens host.remminafile
            ++ ["-X", toString gpdata.socket_id]
            ++ (file_get_string host.remminafile "server").toList]
      ∧ (remmina_plugin_open_connection host gpdata).gpdata.socket_id = gpdata.socket_id
      ∧ (remmina_plugin_open_connection host gpdata).ret = false := by
  refine ⟨?_, ?_, ?_⟩
  · rw [open_connection_spawn_requests, socket_id_at_build, if_neg hdetached,
      argv_strings_build_argv_any]
  · rw [open_connection_detached host gpdata hdetached]
    dsimp only
    split <;> rfl
  · rw [open_connection_ret]
    exact decide_eq_false hdetached

theorem open_connection_detached_argv_witness :
    spawn_requests (remmina_plugin_open_connection host_detached gpdata_init).calls
        = [["rdesktop"] ++ spec_option_tokens host_detached.remminafile
            ++ ["-X", toString gpdata_init.socket_id]
            ++ (file_get_string host_detached.remminafile "server").toList]
      ∧ (remmina_plugin_open_connection host_detached gpdata_init).gpdata.socket_id
        = gpdata_init.socket_id
      ∧ (remmina_plugin_open_connection host_detached gpdata_init).ret = false :=
  open_connection_detached_argv host_detached gpdata_init (by decide)

/-! ## Tokens that cannot be mistaken for a display-mode flag -/

/-- A token written outside the display-mode block differs from a flag of the shape
minus-letter that is not among the flags of those blocks, unless the profile holds that very
flag as a string or a secret. -/
theorem plain_token_ne {f : RemminaFile} {token : String} (flag : String)
    (h : plain_token f token)
    (hflag : flag ∉ option_flags)
    (hhead : flag.data.head? = some '-')
    (hletter : ∃ c ∈ flag.data, c ≠ '-' ∧ c.isDigit = false)
    (hstrings : ∀ key, file_get_string f key ≠ some flag)
    (hsecrets : ∀ key, file_get_secret f key ≠ some flag) : token ≠ flag := by
  intro heq
  subst heq
  rcases h with h | ⟨key, h⟩ | ⟨key, h⟩ | ⟨str, h⟩ | ⟨str, h⟩ | h
  · exact hflag h
  · exact hstrings key h
  · exact hsecrets key h
  · exact printf_literal_ne "disk:share=" str token 'd' (by decide)
      (by rw [hhead]; decide) h.symm
  · exact printf_literal_ne "sound:" str token 's' (by decide)
      (by rw [hhead]; decide) h.symm
  · exact printf_i_ne_flag _ token hletter h.symm

/-- A flag of the shape minus-letter that is not written by the display-mode block for this
profile, nor by any other block, does not occur among the strings handed to the spawn
call, unless the profile holds that very flag as a string or a secret. -/
theorem not_mem_argv_strings (f : RemminaFile) (socket_id : Int) (flag : String)
    (hdisplay : flag ∉ spec_display_tokens f)
    (hflag : flag ∉ option_flags) (hsocket : flag ≠ "-X") (hclient : flag ≠ "rdesktop")
    (hhead : flag.data.head? = some '-')
    (hletter : ∃ c ∈ flag.data, c ≠ '-' ∧ c.isDigit = false)
    (hstrings : ∀ key, file_get_string f key ≠ some flag)
    (hsecrets : ∀ key, file_get_secret f key ≠ some flag) :
    flag ∉ argv_strings (build_argv f socket_id) := by
  rw [argv_strings_build_argv_any]
  intro hmem
  simp only [spec_option_tokens, List.mem_append, List.mem_cons, List.mem_singleton,
    List.not_mem_nil, or_false, Option.mem_toList, Option.mem_def] at hmem
  rcases hmem with ((h | (h | h) | h) | h | h) | h
  · exact hclient h
  · exact plain_token_ne flag (mem_spec_tokens_before_display h) hflag hhead hletter
      hstrings hsecrets rfl
  · exact hdisplay h
  · exact plain_token_ne flag (mem_spec_tokens_after_display h) hflag hhead hletter
      hstrings hsecrets rfl
  · exact hsocket h
  · exact printf_i_ne_flag _ flag hletter h.symm
  · exact hstrings "server" h

/-- C4. For a profile with fullscreen=true, whatever seamlessrdp and the resolution are,
the display-mode block writes the single token `-f`; in the vector handed to the spawn call
the display-mode group, between the rows above it and the rows below it, is exactly `-f`;
and when no string or secret of the profile is itself `-A` or `-g`, neither token occurs
in that vector. -/
theorem fullscreen_display_mode (f : RemminaFile)
    (hfullscreen : GET_PLUGIN_BOOLEAN f "fullscreen" ≠ 0) :
    (∀ argv, put_display_mode f argv = argv ++ [some "-f"])
      ∧ (∀ socket_id, argv_strings (build_argv f socket_id)
          = ["rdesktop"] ++ spec_tokens_before_display f ++ ["-f"]
            ++ spec_tokens_after_display f ++ ["-X", toString socket_id]
            ++ (file_get_string f "server").toList)
      ∧ ((∀ key, file_get_string f key ≠ some "-A" ∧ file_get_string f key ≠ some "-g") →
          (∀ key, file_get_secret f key ≠ some "-A" ∧ file_get_secret f key ≠ some "-g") →
          ∀ socket_id, "-A" ∉ argv_strings (build_argv f socket_id)
            ∧ "-g" ∉ argv_strings (build_argv f socket_id)) := by
  have hdisplay : spec_display_tokens f = ["-f"] := by
    have hfs : file_get_int f "fullscreen" 0 ≠ 0 := hfullscreen
    unfold spec_display_tokens
    rw [if_pos hfs]
  refine ⟨fun argv => ?_, fun socket_id => ?_, fun hstrings hsecrets socket_id => ⟨?_, ?_⟩⟩
  · rw [put_display_mode_append, hdisplay]; rfl
  · rw [argv_strings_build_argv_any, spec_option_tokens, hdisplay]
    simp only [List.append_assoc]
  · exact not_mem_argv_strings f socket_id "-A" (by rw [hdisplay]; decide) (by decide)
      (by decide) (by decide) (by decide) (by decide)
      (fun key => (hstrings key).1) (fun key => (hsecrets key).1)
  · exact not_mem_argv_strings f socket_id "-g" (by rw [hdisplay]; decide) (by decide)
      (by decide) (by decide) (by decide) (by decide)
      (fun key => (hstrings key).2) (fun key => (hsecrets key).2)

theorem fullscreen_display_mode_witness :
    argv_strings (build_argv profile_fullscreen 58720263)
        = ["rdesktop", "-u", "alice", "-f", "-X", "58720263", "rdp.example.org"]
      ∧ (∀ argv, put_display_mode profile_fullscreen argv = argv ++ [some "-f"])
      ∧ (∀ socket_id, argv_strings (build_argv profile_fullscreen socket_id)
          = ["rdesktop"] ++ spec_tokens_before_display profile_fullscreen ++ ["-f"]
            ++ spec_tokens_after_display profile_fullscreen ++ ["-X", toString socket_id]
            ++ (file_get_string profile_fullscreen "server").toList)
      ∧ ∀ socket_id, "-A" ∉ argv_strings (build_argv profile_fullscreen socket_id)
          ∧ "-g" ∉ argv_strings (build_argv profile_fullscreen socket_id) :=
  ⟨by decide,
    (fullscreen_display_mode profile_fullscreen (by decide)).1,
    (fullscreen_display_mode profile_fullscreen (by decide)).2.1,
    (fullscreen_display_mode profile_fullscreen (by decide)).2.2
      (by
        intro key
        simp only [file_get_string, profile_fullscreen]
        split_ifs <;> decide)
      (by
        intro key
        simp only [file_get_secret, profile_fullscreen]
        decide)⟩

/-- How often a flag of the shape minus-letter occurs among the strings handed to the spawn
call: as often as the display-mode block writes it, when no other block writes it and the
profile does not hold that very flag as a string or a secret. -/
theorem count_argv_strings (f : RemminaFile) (socket_id : Int) (flag : String)
    (hflag : flag ∉ option_flags) (hsocket : flag ≠ "-X") (hclient : flag ≠ "rdesktop")
    (hhead : flag.data.head? = some '-')
    (hletter : ∃ c ∈ flag.data, c ≠ '-' ∧ c.isDigit = false)
    (hstrings : ∀ key, file_get_string f key ≠ some flag)
    (hsecrets : ∀ key, file_get_secret f key ≠ some flag) :
    (argv_strings (build_argv f socket_id)).count flag
      = (spec_display_tokens f).count flag := by
  have hbefore : (spec_tokens_before_display f).count flag = 0 :=
    List.count_eq_zero.mpr fun h =>
      plain_token_ne flag (mem_spec_tokens_before_display h) hflag hhead hletter
        hstrings hsecrets rfl
  have hafter : (spec_tokens_after_display f).count flag = 0 :=
    List.count_eq_zero.mpr fun h =>
      plain_token_ne flag (mem_spec_tokens_after_display h) hflag hhead hletter
        hstrings hsecrets rfl
  have hfirst : (["rdesktop"] : List String).count flag = 0 :=
    List.count_eq_zero.mpr fun h => hclient (List.mem_singleton.mp h)
  have hid : (["-X", toString socket_id] : List String).count flag = 0 :=
    List.count_eq_zero.mpr fun h => by
      simp only [List.mem_cons, List.mem_singleton, List.not_mem_nil, or_false] at h
      rcases h with h | h
      · exact hsocket h
      · exact printf_i_ne_flag _ flag hletter h.symm
  have hserver : ((file_get_string f "server").toList).count flag = 0 :=
    List.count_eq_zero.mpr fun h => by
      simp only [Option.mem_toList, Option.mem_def] at h
      exact hstrings "server" h
  rw [argv_strings_build_argv_any]
  simp only [spec_option_tokens, List.count_append, hbefore, hafter, hfirst, hid, hserver]
  omega

/-- C5, as stated, fails: with seamlessrdp on, fullscreen off and no string option equal to
`-f` or `-g`, a user name `-A` makes `-A` occur twice in the vector. -/
theorem seamless_flag_occurs_twice :
    GET_PLUGIN_BOOLEAN profile_seamless_dash "fullscreen" = 0
      ∧ GET_PLUGIN_BOOLEAN profile_seamless_dash "seamlessrdp" ≠ 0
      ∧ (∀ key, file_get_string profile_seamless_dash key ≠ some "-f"
          ∧ file_get_string profile_seamless_dash key ≠ some "-g")
      ∧ (∀ key, file_get_secret profile_seamless_dash key ≠ some "-f"
          ∧ file_get_secret profile_seamless_dash key ≠ some "-g")
      ∧ argv_strings (build_argv profile_seamless_dash 58720263)
        = ["rdesktop", "-u", "-A", "-A", "-X", "58720263", "rdp.example.org"]
      ∧ (argv_strings (build_argv profile_seamless_dash 58720263)).count "-A" = 2 := by
  refine ⟨by decide, by decide, ?_, ?_, by decide, by decide⟩
  · intro key
    simp only [file_get_string, profile_seamless_dash]
    split_ifs <;> decide
  · intro key
    simp only [file_get_secret, profile_seamless_dash]
    decide

/-- C5, amended. For a profile with fullscreen=false and seamlessrdp=true, whatever the
resolution is, the display-mode block writes the single token `-A`; and when no string or
secret of the profile is itself `-A`, `-f` or `-g`, the vector handed to the spawn call
holds `-A` exactly once and holds neither `-g` nor `-f`. -/
theorem seamless_display_mode (f : RemminaFile)
    (hfullscreen : GET_PLUGIN_BOOLEAN f "fullscreen" = 0)
    (hseamless : GET_PLUGIN_BOOLEAN f "seamlessrdp" ≠ 0) :
    (∀ argv, put_display_mode f argv = argv ++ [some "-A"])
      ∧ ((∀ key, file_get_string f key ≠ some "-A" ∧ file_get_string f key ≠ some "-f"
            ∧ file_get_string f key ≠ some "-g") →
          (∀ key, file_get_secret f key ≠ some "-A" ∧ file_get_secret f key ≠ some "-f"
            ∧ file_get_secret f key ≠ some "-g") →
          ∀ socket_id, (argv_strings (build_argv f socket_id)).count "-A" = 1
            ∧ "-g" ∉ argv_strings (build_argv f socket_id)
            ∧ "-f" ∉ argv_strings (build_argv f socket_id)) := by
  have hdisplay : spec_display_tokens f = ["-A"] := by
    have hfs : file_get_int f "fullscreen" 0 = 0 := hfullscreen
    have hsl : file_get_int f "seamlessrdp" 0 ≠ 0 := hseamless
    unfold spec_display_tokens
    rw [if_neg (not_not.mpr hfs), if_pos hsl]
  refine ⟨fun argv => ?_, fun hstrings hsecrets socket_id => ⟨?_, ?_, ?_⟩⟩
  · rw [put_display_mode_append, hdisplay]; rfl
  · rw [count_argv_strings f socket_id "-A" (by decide) (by decide) (by decide) (by decide)
      (by decide) (fun key => (hstrings key).1) (fun key => (hsecrets key).1), hdisplay]
    decide
  · exact not_mem_argv_strings f socket_id "-g" (by rw [hdisplay]; decide) (by decide)
      (by decide) (by decide) (by decide) (by decide)
      (fun key => (hstrings key).2.2) (fun key => (hsecrets key).2.2)
  · exact not_mem_argv_strings f socket_id "-f" (by rw [hdisplay]; decide) (by decide)
      (by decide) (by decide) (by decide) (by decide)
      (fun key => (hstrings key).2.1) (fun key => (hsecrets key).2.1)

theorem seamless_display_mode_witness :
    (∀ argv, put_display_mode profile_seamless argv = argv ++ [some "-A"])
      ∧ ∀ socket_id, (argv_strings (build_argv profile_seamless socket_id)).count "-A" = 1
          ∧ "-g" ∉ argv_strings (build_argv profile_seamless socket_id)
          ∧ "-f" ∉ argv_strings (build_argv profile_seamless socket_id) :=
  ⟨(seamless_display_mode profile_seamless (by decide) (by decide)).1,
    (seamless_display_mode profile_seamless (by decide) (by decide)).2
      (by
        intro key
        simp only [file_get_string, profile_seamless]
        split_ifs <;> decide)
      (by
        intro key
        simp only [file_get_secret, profile_seamless]
        decide)⟩

/-! ## The geometry pair and the two `-r` pairs -/

/-- The accessor `file_get_int` in terms of the stored value: that value, else the default. -/
theorem file_get_int_eq_getD (f : RemminaFile) (key : String) (default_value : Int) :
    file_get_int f key default_value = (f.ints key).getD default_value := by
  unfold file_get_int
  cases f.ints key <;> rfl

/-- A geometry token holds the letter `x`, so it is none of the flags. -/
theorem geometry_ne (width height : Int) (flag : String) (hflag : 'x' ∉ flag.data) :
    toString width ++ "x" ++ toString height ≠ flag := by
  intro h
  apply hflag
  rw [← h, String.data_append, String.data_append]
  simp

/-- C6. For a profile with fullscreen=false and seamlessrdp=false the display-mode block
writes the adjacent pair `-g`, `<w>x<h>`, with `w` the resolution width if set and 1024
otherwise and `h` the resolution height if set and 768 otherwise, in signed decimal; the
pair stands in the vector handed to the spawn call; and when no string or secret of the
profile is itself `-f` or `-A`, neither `-f` nor `-A` occurs in that vector. -/
theorem resolution_display_mode (f : RemminaFile)
    (hfullscreen : GET_PLUGIN_BOOLEAN f "fullscreen" = 0)
    (hseamless : GET_PLUGIN_BOOLEAN f "seamlessrdp" = 0) :
    (∀ argv, put_display_mode f argv = argv ++ [some "-g", some (spec_geometry f)])
      ∧ (∀ socket_id, ∃ front back,
          argv_strings (build_argv f socket_id) = front ++ ["-g", spec_geometry f] ++ back)
      ∧ ((∀ key, file_get_string f key ≠ some "-f" ∧ file_get_string f key ≠ some "-A") →
          (∀ key, file_get_secret f key ≠ some "-f" ∧ file_get_secret f key ≠ some "-A") →
          ∀ socket_id, "-f" ∉ argv_strings (build_argv f socket_id)
            ∧ "-A" ∉ argv_strings (build_argv f socket_id)) := by
  have hdisplay : spec_display_tokens f = ["-g", spec_geometry f] := by
    have hfs : file_get_int f "fullscreen" 0 = 0 := hfullscreen
    have hsl : file_get_int f "seamlessrdp" 0 = 0 := hseamless
    unfold spec_display_tokens spec_geometry
    rw [if_neg (not_not.mpr hfs), if_neg (not_not.mpr hsl), file_get_int_eq_getD,
      file_get_int_eq_getD]
  have hf : "-f" ∉ spec_display_tokens f := by
    rw [hdisplay]
    simp only [List.mem_cons, List.mem_singleton, List.not_mem_nil, or_false, not_or]
    exact ⟨by decide, fun h => geometry_ne _ _ "-f" (by decide) h.symm⟩
  have hA : "-A" ∉ spec_display_tokens f := by
    rw [hdisplay]
    simp only [List.mem_cons, List.mem_singleton, List.not_mem_nil, or_false, not_or]
    exact ⟨by decide, fun h => geometry_ne _ _ "-A" (by decide) h.symm⟩
  refine ⟨fun argv => ?_, fun socket_id => ?_, fun hstrings hsecrets socket_id => ⟨?_, ?_⟩⟩
  · rw [put_display_mode_append, hdisplay]; rfl
  · refine ⟨["rdesktop"] ++ spec_tokens_before_display f,
      spec_tokens_after_display f ++ ["-X", toString socket_id]
        ++ (file_get_string f "server").toList, ?_⟩
    rw [argv_strings_build_argv_any, spec_option_tokens, hdisplay]
    simp only [List.append_assoc]
  · exact not_mem_argv_strings f socket_id "-f" hf (by decide)
      (by decide) (by decide) (by decide) (by decide)
      (fun key => (hstrings key).1) (fun key => (hsecrets key).1)
  · exact not_mem_argv_strings f socket_id "-A" hA (by decide)
      (by decide) (by decide) (by decide) (by decide)
      (fun key => (hstrings key).2) (fun key => (hsecrets key).2)

theorem resolution_display_mode_witness :
    spec_geometry profile_height_only = "1024x-600"
      ∧ (∀ argv, put_display_mode profile_height_only argv
          = argv ++ [some "-g", some (spec_geometry profile_height_only)])
      ∧ (∀ socket_id, ∃ front back,
          argv_strings (build_argv profile_height_only socket_id)
            = front ++ ["-g", spec_geometry profile_height_only] ++ back)
      ∧ ∀ socket_id, "-f" ∉ argv_strings (build_argv profile_height_only socket_id)
          ∧ "-A" ∉ argv_strings (build_argv profile_height_only socket_id) :=
  ⟨by decide,
    (resolution_display_mode profile_height_only (by decide) (by decide)).1,
    (resolution_display_mode profile_height_only (by decide) (by decide)).2.1,
    (resolution_display_mode profile_height_only (by decide) (by decide)).2.2
      (by
        intro key
        simp only [file_get_string, profile_height_only]
        split_ifs <;> decide)
      (by
        intro key
        simp only [file_get_secret, profile_height_only]
        decide)⟩

/-- C7. For a profile with sharefolder set to `s` and sound set to `t`, the vector handed to
the spawn call holds the adjacent pair `-r`, `disk:share=s` and, further on, the adjacent
pair `-r`, `sound:t`: two separate occurrences of `-r`, the share-folder one first. -/
theorem sharefolder_and_sound (f : RemminaFile) (s t : String)
    (hsharefolder : file_get_string f "sharefolder" = some s)
    (hsound : file_get_string f "sound" = some t) (socket_id : Int) :
    ∃ front middle back,
      argv_strings (build_argv f socket_id)
        = front ++ ["-r", "disk:share=" ++ s] ++ middle ++ ["-r", "sound:" ++ t] ++ back := by
  refine ⟨["rdesktop"]
      ++ spec_value_tokens "-u" (file_get_string f "username")
      ++ spec_value_tokens "-d" (file_get_string f "domain")
      ++ spec_value_tokens "-p" (file_get_secret f "password")
      ++ spec_value_tokens "-n" (file_get_string f "clientname")
      ++ spec_value_tokens "-s" (file_get_string f "exec")
      ++ spec_value_tokens "-c" (file_get_string f "execpath")
      ++ spec_value_tokens "-T" (file_get_string f "title")
      ++ spec_value_tokens "-k" (file_get_string f "keymap")
      ++ spec_flag_tokens "-0" (file_get_int f "console" 0)
      ++ spec_flag_tokens "-z" (file_get_int f "compression" 0)
      ++ spec_flag_tokens "-P" (file_get_int f "bitmapcaching" 0),
    spec_display_tokens f
      ++ (if file_get_int f "colordepth" 0 = 0 then []
          else ["-a", toString (file_get_int f "colordepth" 0)])
      ++ spec_value_tokens "-x" (file_get_string f "experience"),
    spec_flag_tokens "-D" (file_get_int f "hidedecorations" 0)
      ++ spec_flag_tokens "-K" (file_get_int f "nograbkeyboard" 0)
      ++ spec_flag_tokens "-E" (file_get_int f "noencryption" 0)
      ++ spec_flag_tokens "-N" (file_get_int f "syncnumlock" 0)
      ++ spec_flag_tokens "-4" (file_get_int f "rdp4" 0)
      ++ spec_flag_tokens "-5" (file_get_int f "rdp5" 0)
      ++ spec_flag_tokens "-m" (file_get_int f "nomousemotion" 0)
      ++ ["-X", toString socket_id] ++ (file_get_string f "server").toList, ?_⟩
  have hshare : spec_value_tokens "-r" ((file_get_string f "sharefolder").map
      ("disk:share=" ++ ·)) = ["-r", "disk:share=" ++ s] := by
    rw [hsharefolder]; rfl
  have hsnd : spec_value_tokens "-r" ((file_get_string f "sound").map ("sound:" ++ ·))
      = ["-r", "sound:" ++ t] := by
    rw [hsound]; rfl
  rw [argv_strings_build_argv_any, spec_option_tokens, spec_tokens_before_display,
    spec_tokens_after_display, hshare, hsnd]
  simp only [List.append_assoc]

theorem sharefolder_and_sound_witness :
    argv_strings (build_argv profile_full 58720263)
        = ["rdesktop", "-u", "alice", "-d", "CORP", "-p", "s3cret", "-k", "en-us", "-z",
            "-r", "disk:share=media", "-g", "800x768", "-a", "16", "-x", "l",
            "-r", "sound:remote", "-N", "-m", "-X", "58720263", "rdp.example.org"]
      ∧ ∃ front middle back,
        argv_strings (build_argv profile_full 58720263)
          = front ++ ["-r", "disk:share=" ++ "media"] ++ middle
            ++ ["-r", "sound:" ++ "remote"] ++ back :=
  ⟨by decide, sharefolder_and_sound profile_full "media" "remote" (by decide) (by decide)
    58720263⟩

/-! ## First and last token, and the spawn outcome -/

/-- C8, as stated, fails: for a profile without a server the server slot is NULL, so the
vector handed to the spawn call ends with the socket-id token. -/
theorem last_token_without_server :
    file_get_string host_empty.remminafile "server" = none
      ∧ spawn_requests (remmina_plugin_open_connection host_empty gpdata_init).calls
        = [["rdesktop", "-g", "1024x768", "-X", "58720263"]]
      ∧ (argv_strings (build_argv host_empty.remminafile 58720263)).getLast?
        = some "58720263" := by
  decide

/-- C8, amended. For every profile the one vector handed to the spawn call is non-empty and
starts with `rdesktop`; when the server is set, its last token is the server. -/
theorem first_and_last_token (host : Host) (gpdata : RemminaPluginData) :
    ∃ args, spawn_requests (remmina_plugin_open_connection host gpdata).calls = [args]
      ∧ args ≠ []
      ∧ args.head? = some "rdesktop"
      ∧ ∀ server, file_get_string host.remminafile "server" = some server →
          args.getLast? = some server := by
  refine ⟨_, open_connection_spawn_requests host gpdata, ?_, ?_, ?_⟩
  · rw [argv_strings_build_argv_any]; simp
  · rw [argv_strings_build_argv_any]; simp
  · intro server hserver
    rw [argv_strings_build_argv_any, hserver]
    exact List.getLast?_concat _

theorem first_and_last_token_witness :
    ∃ args, spawn_requests (remmina_plugin_open_connection host_full gpdata_init).calls = [args]
      ∧ args ≠ []
      ∧ args.head? = some "rdesktop"
      ∧ args.getLast? = some "rdp.example.org" :=
  (first_and_last_token host_full gpdata_init).imp fun _ h =>
    ⟨h.1, h.2.1, h.2.2.1, h.2.2.2 "rdp.example.org" (by decide)⟩

/-- C10. For every profile and session state `remmina_plugin_open_connection` makes exactly
one spawn attempt; it reports the spawn layer's error text once when that attempt fails and
reports nothing when it succeeds; and it returns TRUE exactly when detached is false,
whatever the spawn outcome. -/
theorem one_spawn_attempt (host : Host) (gpdata : RemminaPluginData) :
    ∃ args, spawn_requests (remmina_plugin_open_connection host gpdata).calls = [args]
      ∧ error_reports (remmina_plugin_open_connection host gpdata).calls
        = (if (host.g_spawn_async args).ret = false
            then [(host.g_spawn_async args).error_message] else [])
      ∧ ((remmina_plugin_open_connection host gpdata).ret = true
          ↔ GET_PLUGIN_BOOLEAN host.remminafile "detached" = 0) := by
  refine ⟨_, open_connection_spawn_requests host gpdata,
    open_connection_error_reports host gpdata, ?_⟩
  rw [open_connection_ret]
  exact decide_eq_true_iff

/-! ## The lifecycle: what each callback changes and signals -/

/-- `remmina_plugin_open_connection` emits no signal and asks for no close. -/
theorem open_connection_no_signal (host : Host) (gpdata : RemminaPluginData) :
    emitted_signals (remmina_plugin_open_connection host gpdata).calls = []
      ∧ close_requests (remmina_plugin_open_connection host gpdata).calls = 0 := by
  by_cases h : GET_PLUGIN_BOOLEAN host.remminafile "detached" = 0
  · rw [open_connection_attached host gpdata h]
    dsimp only
    split <;> exact ⟨rfl, rfl⟩
  · rw [open_connection_detached host gpdata h]
    dsimp only
    split <;> exact ⟨rfl, rfl⟩

/-- `remmina_plugin_open_connection` leaves the `ready` flag as it was. -/
theorem open_connection_ready (host : Host) (gpdata : RemminaPluginData) :
    (remmina_plugin_open_connection host gpdata).gpdata.ready = gpdata.ready := by
  by_cases h : GET_PLUGIN_BOOLEAN host.remminafile "detached" = 0
  · rw [open_connection_attached host gpdata h]
    dsimp only
    split <;> rfl
  · rw [open_connection_detached host gpdata h]
    dsimp only
    split <;> rfl

/-- The width and height requests of `remmina_plugin_open_connection`: 640 and 480 when
`detached` reads as zero, none otherwise. -/
theorem open_connection_size_requests (host : Host) (gpdata : RemminaPluginData) :
    width_requests (remmina_plugin_open_connection host gpdata).calls
        = (if GET_PLUGIN_BOOLEAN host.remminafile "detached" = 0 then [640] else [])
      ∧ height_requests (remmina_plugin_open_connection host gpdata).calls
        = (if GET_PLUGIN_BOOLEAN host.remminafile "detached" = 0 then [480] else []) := by
  by_cases h : GET_PLUGIN_BOOLEAN host.remminafile "detached" = 0
  · rw [open_connection_attached host gpdata h, if_pos h, if_pos h]
    dsimp only
    split <;> exact ⟨rfl, rfl⟩
  · rw [open_connection_detached host gpdata h, if_neg h, if_neg h]
    dsimp only
    split <;> exact ⟨rfl, rfl⟩

theorem close_requests_append (a b : List HostCall) :
    close_requests (a ++ b) = close_requests a + close_requests b := by
  simp only [close_requests, List.filter_append, List.length_append]

/-- C11, as stated, fails: after Init and OpenConnection, two firings of plug-removed issue
two close requests. -/
theorem plug_removed_twice_closes_twice :
    close_requests (lifecycle_run gpdata_init events_plug_removed_twice).calls = 2 := by
  decide

/-- C11, amended. Each firing of plug-removed issues exactly one close request and leaves the
plugin data as it was, whatever happened before; so after Init and OpenConnection two
firings in succession issue two close requests. -/
theorem plug_removed_closes_each_time (host : Host) (gpdata : RemminaPluginData) :
    (∀ data, close_requests (remmina_plugin_on_plug_removed data).calls = 1
        ∧ (remmina_plugin_on_plug_removed data).gpdata = data)
      ∧ close_requests (lifecycle_run gpdata
          [LifecycleEvent.init, LifecycleEvent.open_connection host,
            LifecycleEvent.plug_removed, LifecycleEvent.plug_removed]).calls = 2 := by
  refine ⟨fun data => ⟨rfl, rfl⟩, ?_⟩
  simp only [lifecycle_run, lifecycle_step, close_requests_append,
    (open_connection_no_signal host _).2]
  rfl

/-- Every event other than Init and plug-added leaves the `ready` flag as it was. -/
theorem lifecycle_step_ready (gpdata : RemminaPluginData) (event : LifecycleEvent)
    (hinit : event ≠ LifecycleEvent.init) (hadded : event ≠ LifecycleEvent.plug_added) :
    (lifecycle_step gpdata event).gpdata.ready = gpdata.ready := by
  cases event with
  | init => exact absurd rfl hinit
  | plug_added => exact absurd rfl hadded
  | open_connection host => exact open_connection_ready host gpdata
  | plug_removed => rfl
  | close_connection => rfl
  | query_feature => rfl
  | call_feature => rfl

/-- Splitting off the first event of a sequence in which plug-added occurs with no Init
after it. -/
theorem plug_added_since_cons (event : LifecycleEvent) (events : List LifecycleEvent) :
    (∃ before after, event :: events = before ++ LifecycleEvent.plug_added :: after
        ∧ LifecycleEvent.init ∉ after)
      ↔ (event = LifecycleEvent.plug_added ∧ LifecycleEvent.init ∉ events)
        ∨ ∃ before after, events = before ++ LifecycleEvent.plug_added :: after
          ∧ LifecycleEvent.init ∉ after := by
  constructor
  · rintro ⟨before, after, heq, hafter⟩
    cases before with
    | nil =>
      left
      rw [List.nil_append] at heq
      obtain ⟨h1, h2⟩ := List.cons.inj heq
      exact ⟨h1, by rw [h2]; exact hafter⟩
    | cons first before =>
      right
      rw [List.cons_append] at heq
      exact ⟨before, after, (List.cons.inj heq).2, hafter⟩
  · rintro (⟨h1, h2⟩ | ⟨before, after, heq, hafter⟩)
    · exact ⟨[], events, by rw [h1]; rfl, h2⟩
    · exact ⟨event :: before, after, by rw [heq]; rfl, hafter⟩

/-- After a sequence of events the `ready` flag is set exactly when it was set before and no
Init occurred, or plug-added occurred with no Init after it. -/
theorem lifecycle_run_ready (events : List LifecycleEvent) :
    ∀ gpdata : RemminaPluginData,
      (lifecycle_run gpdata events).gpdata.ready = true
        ↔ (gpdata.ready = true ∧ LifecycleEvent.init ∉ events)
          ∨ ∃ before after, events = before ++ LifecycleEvent.plug_added :: after
            ∧ LifecycleEvent.init ∉ after := by
  induction events with
  | nil =>
    intro gpdata
    simp [lifecycle_run]
  | cons event events ih =>
    intro gpdata
    rw [plug_added_since_cons]
    simp only [lifecycle_run]
    rw [ih]
    by_cases hinit : event = LifecycleEvent.init
    · subst hinit
      have hready : (lifecycle_step gpdata LifecycleEvent.init).gpdata.ready = false := rfl
      simp [hready]
    · by_cases hadded : event = LifecycleEvent.plug_added
      · subst hadded
        have hready : (lifecycle_step gpdata LifecycleEvent.plug_added).gpdata.ready = true :=
          rfl
        simp only [hready, true_and, List.mem_cons, not_or]
        constructor
        · rintro (h | h)
          · exact Or.inr (Or.inl h)
          · exact Or.inr (Or.inr h)
        · rintro (⟨_, _, h⟩ | h | h)
          · exact Or.inl h
          · exact Or.inl h
          · exact Or.inr h
      · rw [lifecycle_step_ready gpdata event hinit hadded]
        simp only [List.mem_cons, not_or]
        constructor
        · rintro (⟨h1, h2⟩ | h)
          · exact Or.inl ⟨h1, fun h => hinit h.symm, h2⟩
          · exact Or.inr (Or.inr h)
        · rintro (⟨h1, _, h2⟩ | ⟨h, _⟩ | h)
          · exact Or.inl ⟨h1, h2⟩
          · exact absurd h hadded
          · exact Or.inr h

/-- C12. The `ready` flag is FALSE after Init; one plug-added event emits exactly one
`connect` signal and leaves `ready` TRUE with `socket_id` and `pid` unchanged; OpenConnection,
plug-removed, CloseConnection, QueryFeature and CallFeature leave `ready` as it was; so after
Init followed by any events, `ready` is TRUE exactly when plug-added has occurred with no
later Init. -/
theorem ready_iff_plug_added :
    remmina_plugin_init.gpdata.ready = false
      ∧ (∀ gpdata : RemminaPluginData,
          emitted_signals (remmina_plugin_on_plug_added gpdata).calls = ["connect"]
            ∧ (remmina_plugin_on_plug_added gpdata).gpdata.ready = true
            ∧ (remmina_plugin_on_plug_added gpdata).gpdata.socket_id = gpdata.socket_id
            ∧ (remmina_plugin_on_plug_added gpdata).gpdata.pid = gpdata.pid)
      ∧ (∀ (gpdata : RemminaPluginData) (host : Host),
          (remmina_plugin_open_connection host gpdata).gpdata.ready = gpdata.ready
            ∧ (remmina_plugin_on_plug_removed gpdata).gpdata.ready = gpdata.ready
            ∧ (remmina_plugin_close_connection gpdata).gpdata.ready = gpdata.ready
            ∧ (remmina_plugin_query_feature gpdata ()).gpdata.ready = gpdata.ready
            ∧ (remmina_plugin_call_feature gpdata ()).gpdata.ready = gpdata.ready)
      ∧ ∀ (gpdata : RemminaPluginData) (events : List LifecycleEvent),
          (lifecycle_run gpdata (LifecycleEvent.init :: events)).gpdata.ready = true
            ↔ ∃ before after, events = before ++ LifecycleEvent.plug_added :: after
              ∧ LifecycleEvent.init ∉ after := by
  refine ⟨rfl, fun gpdata => ⟨rfl, rfl, rfl, rfl⟩,
    fun gpdata host => ⟨open_connection_ready host gpdata, rfl, rfl, rfl, rfl⟩, ?_⟩
  intro gpdata events
  have hstep : lifecycle_run gpdata (LifecycleEvent.init :: events)
      = { gpdata := (lifecycle_run remmina_plugin_init.gpdata events).gpdata
          calls := remmina_plugin_init.calls
            ++ (lifecycle_run remmina_plugin_init.gpdata events).calls } := rfl
  rw [hstep]
  dsimp only
  rw [lifecycle_run_ready]
  have hready : remmina_plugin_init.gpdata.ready = false := rfl
  simp [hready]

/-- C13. Whatever the plugin data, `remmina_plugin_close_connection` emits exactly one signal,
`disconnect`, returns FALSE, and leaves `socket_id`, `pid` and `ready` as they were. -/
theorem close_connection_disconnects (gpdata : RemminaPluginData) :
    emitted_signals (remmina_plugin_close_connection gpdata).calls = ["disconnect"]
      ∧ (remmina_plugin_close_connection gpdata).ret = false
      ∧ (remmina_plugin_close_connection gpdata).gpdata = gpdata :=
  ⟨rfl, rfl, rfl⟩

/-- C14. Whatever the plugin data and the feature descriptor, `remmina_plugin_query_feature`
returns FALSE, and it and `remmina_plugin_call_feature` leave the plugin data as it was and
make no signal, no close request and no error report. -/
theorem features_unsupported {RemminaProtocolFeature : Type} (gpdata : RemminaPluginData)
    (feature : RemminaProtocolFeature) :
    (remmina_plugin_query_feature gpdata feature).ret = false
      ∧ (remmina_plugin_query_feature gpdata feature).gpdata = gpdata
      ∧ (remmina_plugin_call_feature gpdata feature).gpdata = gpdata
      ∧ emitted_signals (remmina_plugin_query_feature gpdata feature).calls = []
      ∧ close_requests (remmina_plugin_query_feature gpdata feature).calls = 0
      ∧ error_reports (remmina_plugin_query_feature gpdata feature).calls = []
      ∧ emitted_signals (remmina_plugin_call_feature gpdata feature).calls = []
      ∧ close_requests (remmina_plugin_call_feature gpdata feature).calls = 0
      ∧ error_reports (remmina_plugin_call_feature gpdata feature).calls = [] :=
  ⟨rfl, rfl, rfl, rfl, rfl, rfl, rfl, rfl, rfl⟩

/-! ## The toggles of the advanced settings table -/

/-- C15. In the advanced settings table the entries of type CHECK are, each once, those for
fullscreen, seamlessrdp, console, compression, bitmapcaching, nomousemotion,
hidedecorations, detached, nograbkeyboard, rdp4, rdp5, syncnumlock and noencryption; and
the flag of such an entry is on exactly when its key is one of fullscreen, compression,
nomousemotion, detached, rdp4, syncnumlock. -/
theorem advanced_check_entries :
    (check_entries remmina_plugin_advanced_settings).map (fun entry => entry.name)
        = [some "fullscreen", some "seamlessrdp", some "console", some "compression",
            some "bitmapcaching", some "nomousemotion", some "hidedecorations",
            some "detached", some "nograbkeyboard", some "rdp4", some "rdp5",
            some "syncnumlock", some "noencryption"]
      ∧ ((check_entries remmina_plugin_advanced_settings).map
          (fun entry => entry.name)).Nodup
      ∧ ∀ entry ∈ check_entries remmina_plugin_advanced_settings,
          (entry.default_flag = true
            ↔ entry.name ∈ [some "fullscreen", some "compression", some "nomousemotion",
                some "detached", some "rdp4", some "syncnumlock"]) := by
  refine ⟨by decide, by decide, ?_⟩
  decide

theorem advanced_check_entries_witness :
    entry_fullscreen ∈ check_entries remmina_plugin_advanced_settings
      ∧ (entry_fullscreen.default_flag = true
        ↔ entry_fullscreen.name ∈ [some "fullscreen", some "compression",
            some "nomousemotion", some "detached", some "rdp4", some "syncnumlock"]) :=
  ⟨by decide, advanced_check_entries.2.2 entry_fullscreen (by decide)⟩

/-! ## The number of slots written -/

theorem length_spec_value_tokens_le (flag : String) (value : Option String) :
    (spec_value_tokens flag value).length ≤ 2 := by
  cases value <;> simp [spec_value_tokens]

theorem length_spec_flag_tokens_le (flag : String) (value : Int) :
    (spec_flag_tokens flag value).length ≤ 1 := by
  unfold spec_flag_tokens
  split <;> simp

theorem length_spec_display_tokens (f : RemminaFile) :
    1 ≤ (spec_display_tokens f).length ∧ (spec_display_tokens f).length ≤ 2 := by
  unfold spec_display_tokens
  split
  · simp
  · split <;> simp

theorem length_spec_tokens_before_display_le (f : RemminaFile) :
    (spec_tokens_before_display f).length ≤ 21 := by
  unfold spec_tokens_before_display
  simp only [List.length_append]
  have h1 := length_spec_value_tokens_le "-u" (file_get_string f "username")
  have h2 := length_spec_value_tokens_le "-d" (file_get_string f "domain")
  have h3 := length_spec_value_tokens_le "-p" (file_get_secret f "password")
  have h4 := length_spec_value_tokens_le "-n" (file_get_string f "clientname")
  have h5 := length_spec_value_tokens_le "-s" (file_get_string f "exec")
  have h6 := length_spec_value_tokens_le "-c" (file_get_string f "execpath")
  have h7 := length_spec_value_tokens_le "-T" (file_get_string f "title")
  have h8 := length_spec_value_tokens_le "-k" (file_get_string f "keymap")
  have h9 := length_spec_flag_tokens_le "-0" (file_get_int f "console" 0)
  have h10 := length_spec_flag_tokens_le "-z" (file_get_int f "compression" 0)
  have h11 := length_spec_flag_tokens_le "-P" (file_get_int f "bitmapcaching" 0)
  have h12 := length_spec_value_tokens_le "-r"
    ((file_get_string f "sharefolder").map ("disk:share=" ++ ·))
  omega

theorem length_spec_tokens_after_display_le (f : RemminaFile) :
    (spec_tokens_after_display f).length ≤ 13 := by
  unfold spec_tokens_after_display
  simp only [List.length_append]
  have h0 : (if file_get_int f "colordepth" 0 = 0 then ([] : List String)
      else ["-a", toString (file_get_int f "colordepth" 0)]).length ≤ 2 := by
    split <;> simp
  have h1 := length_spec_value_tokens_le "-x" (file_get_string f "experience")
  have h2 := length_spec_value_tokens_le "-r"
    ((file_get_string f "sound").map ("sound:" ++ ·))
  have h3 := length_spec_flag_tokens_le "-D" (file_get_int f "hidedecorations" 0)
  have h4 := length_spec_flag_tokens_le "-K" (file_get_int f "nograbkeyboard" 0)
  have h5 := length_spec_flag_tokens_le "-E" (file_get_int f "noencryption" 0)
  have h6 := length_spec_flag_tokens_le "-N" (file_get_int f "syncnumlock" 0)
  have h7 := length_spec_flag_tokens_le "-4" (file_get_int f "rdp4" 0)
  have h8 := length_spec_flag_tokens_le "-5" (file_get_int f "rdp5" 0)
  have h9 := length_spec_flag_tokens_le "-m" (file_get_int f "nomousemotion" 0)
  omega

/-- The number of slots written, the server slot and the terminating NULL included: five
more than the number of option tokens. -/
theorem argc_build_argv (f : RemminaFile) (socket_id : Int) :
    argc (build_argv f socket_id) = (spec_option_tokens f).length + 5 := by
  rw [build_argv_eq]
  simp only [argc, List.length_append, List.length_map, List.length_cons, List.length_nil]
  omega

/-- Writing the slots of a list one by one with the bounds check succeeds when the list
fits in the array. -/
theorem argv_put_all_checked_of_le (slots : List (Option String)) :
    ∀ argv : Argv, argc argv + slots.length ≤ ARGV_SLOTS →
      argv_put_all_checked argv slots = some (argv ++ slots) := by
  induction slots with
  | nil => intro argv _; simp [argv_put_all_checked]
  | cons str rest ih =>
    intro argv h
    have hlt : argc argv < ARGV_SLOTS := by
      simp only [List.length_cons] at h
      omega
    simp only [argv_put_all_checked, argv_put_checked, if_pos hlt]
    rw [ih]
    · simp [argv_put]
    · simp only [argc, argv_put, List.length_append, List.length_cons, List.length_nil] at *
      omega

/-- C16. For every profile the number of slots of the 50-slot array that
`remmina_plugin_open_connection` writes, the terminating NULL included, is at least 6 and at
most 41; so every write falls inside the array: the same writes made one by one with the
bounds check all succeed. -/
theorem argc_bounds (f : RemminaFile) (socket_id : Int) :
    6 ≤ argc (build_argv f socket_id)
      ∧ argc (build_argv f socket_id) ≤ 41
      ∧ argc (build_argv f socket_id) ≤ ARGV_SLOTS
      ∧ argv_put_all_checked [] (build_argv f socket_id) = some (build_argv f socket_id) := by
  have hbefore := length_spec_tokens_before_display_le f
  have hafter := length_spec_tokens_after_display_le f
  have hdisplay := length_spec_display_tokens f
  have hargc := argc_build_argv f socket_id
  have hlen : (spec_option_tokens f).length
      = (spec_tokens_before_display f).length + (spec_display_tokens f).length
        + (spec_tokens_after_display f).length := by
    simp only [spec_option_tokens, List.length_append]
  have hslots : ARGV_SLOTS = 50 := rfl
  refine ⟨by omega, by omega, by omega, ?_⟩
  have h := argv_put_all_checked_of_le (build_argv f socket_id) []
    (by simp only [argc, List.length_nil] at *; omega)
  simpa using h

/-- Both bounds on the number of slots are reached. -/
theorem argc_bounds_reached :
    argc (build_argv profile_fewest 0) = 6 ∧ argc (build_argv profile_most 0) = 41 := by
  decide

/-! ## What `remmina_plugin_open_connection` changes in the plugin data -/

/-- C17. With detached=true `remmina_plugin_open_connection` leaves `socket_id` and `ready`
as they were and requests no width and no height, so the array is built with the stored
socket id, which is 0 on a freshly initialised session; with detached=false it stores the id
of the socket widget in `socket_id`, requests width 640 and height 480, and leaves `ready`
as it was. -/
theorem open_connection_frame (host : Host) (gpdata : RemminaPluginData) :
    (GET_PLUGIN_BOOLEAN host.remminafile "detached" ≠ 0 →
        (remmina_plugin_open_connection host gpdata).gpdata.socket_id = gpdata.socket_id
          ∧ (remmina_plugin_open_connection host gpdata).gpdata.ready = gpdata.ready
          ∧ width_requests (remmina_plugin_open_connection host gpdata).calls = []
          ∧ height_requests (remmina_plugin_open_connection host gpdata).calls = []
          ∧ spawn_requests (remmina_plugin_open_connection host gpdata).calls
            = [argv_strings (build_argv host.remminafile gpdata.socket_id)]
          ∧ spawn_requests
              (remmina_plugin_open_connection host remmina_plugin_init.gpdata).calls
            = [argv_strings (build_argv host.remminafile 0)])
      ∧ (GET_PLUGIN_BOOLEAN host.remminafile "detached" = 0 →
        (remmina_plugin_open_connection host gpdata).gpdata.socket_id
            = host.gtk_socket_get_id
          ∧ (remmina_plugin_open_connection host gpdata).gpdata.ready = gpdata.ready
          ∧ width_requests (remmina_plugin_open_connection host gpdata).calls = [640]
          ∧ height_requests (remmina_plugin_open_connection host gpdata).calls = [480]) := by
  constructor
  · intro h
    have hsize := open_connection_size_requests host gpdata
    rw [if_neg h, if_neg h] at hsize
    refine ⟨?_, open_connection_ready host gpdata, hsize.1, hsize.2, ?_, ?_⟩
    · rw [open_connection_detached host gpdata h]
      dsimp only
      split <;> rfl
    · rw [open_connection_spawn_requests, socket_id_at_build, if_neg h]
    · rw [open_connection_spawn_requests, socket_id_at_build, if_neg h]
      rfl
  · intro h
    have hsize := open_connection_size_requests host gpdata
    rw [if_pos h, if_pos h] at hsize
    refine ⟨?_, open_connection_ready host gpdata, hsize.1, hsize.2⟩
    rw [open_connection_attached host gpdata h]
    dsimp only
    split <;> rfl

theorem open_connection_frame_witness :
    ((remmina_plugin_open_connection host_detached gpdata_init).gpdata.socket_id
          = gpdata_init.socket_id
        ∧ (remmina_plugin_open_connection host_detached gpdata_init).gpdata.ready
          = gpdata_init.ready
        ∧ width_requests (remmina_plugin_open_connection host_detached gpdata_init).calls = []
        ∧ height_requests (remmina_plugin_open_connection host_detached gpdata_init).calls
          = []
        ∧ spawn_requests (remmina_plugin_open_connection host_detached gpdata_init).calls
          = [argv_strings (build_argv host_detached.remminafile gpdata_init.socket_id)]
        ∧ spawn_requests
            (remmina_plugin_open_connection host_detached remmina_plugin_init.gpdata).calls
          = [argv_strings (build_argv host_detached.remminafile 0)])
      ∧ ((remmina_plugin_open_connection host_full gpdata_init).gpdata.socket_id
          = host_full.gtk_socket_get_id
        ∧ (remmina_plugin_open_connection host_full gpdata_init).gpdata.ready
          = gpdata_init.ready
        ∧ width_requests (remmina_plugin_open_connection host_full gpdata_init).calls = [640]
        ∧ height_requests (remmina_plugin_open_connection host_full gpdata_init).calls
          = [480]) :=
  ⟨(open_connection_frame host_detached gpdata_init).1 (by decide),
    (open_connection_frame host_full gpdata_init).2 (by decide)⟩

/-- The accessors answer NULL for a stored value that is absent or empty. -/
theorem present_value_eq_none {value : Option String} (h : absent_or_empty value) :
    present_value value = none := by
  rcases h with h | h <;> rw [h] <;> rfl

/-- Leaving out the row of a string option changes nothing when the accessor answers NULL
for it. -/
theorem spec_option_tokens_skipping_string (f : RemminaFile) (key : String)
    (hkey : key ∈ ["username", "domain", "clientname", "exec", "execpath", "title",
      "keymap", "sharefolder", "experience", "sound"])
    (h : file_get_string f key = none) :
    spec_option_tokens_skipping f key = spec_option_tokens f := by
  simp only [List.mem_cons, List.mem_singleton, List.not_mem_nil, or_false] at hkey
  rcases hkey with rfl | rfl | rfl | rfl | rfl | rfl | rfl | rfl | rfl | rfl <;>
    simp [spec_option_tokens_skipping, spec_option_tokens, spec_tokens_before_display,
      spec_tokens_after_display, spec_row, spec_value_tokens, h]

theorem spec_option_tokens_skipping_password (f : RemminaFile)
    (h : file_get_secret f "password" = none) :
    spec_option_tokens_skipping f "password" = spec_option_tokens f := by
  simp [spec_option_tokens_skipping, spec_option_tokens, spec_tokens_before_display,
    spec_tokens_after_display, spec_row, spec_value_tokens, h]

/-! ## Absent and empty options -/

/-- C9. For each of the string options username, domain, password, clientname, exec,
execpath, title, keymap, sharefolder, experience and sound: when the stored value is absent
or is the empty string, the block of that option leaves the array as it was, and the vector
handed to the spawn call is the one of the mapping table without the row of that option:
neither its flag nor a value token is written. -/
theorem absent_or_empty_option_writes_nothing (profile : ConnectionProfile) (argv : Argv) :
    (absent_or_empty (profile.strings "username") →
        put_string_option (remminafile_of_profile profile) "username" "-u" argv = argv
          ∧ writes_nothing_for (remminafile_of_profile profile) "username")
      ∧ (absent_or_empty (profile.strings "domain") →
        put_string_option (remminafile_of_profile profile) "domain" "-d" argv = argv
          ∧ writes_nothing_for (remminafile_of_profile profile) "domain")
      ∧ (absent_or_empty (profile.secrets "password") →
        put_password_option (remminafile_of_profile profile) "password" "-p" argv = argv
          ∧ writes_nothing_for (remminafile_of_profile profile) "password")
      ∧ (absent_or_empty (profile.strings "clientname") →
        put_string_option (remminafile_of_profile profile) "clientname" "-n" argv = argv
          ∧ writes_nothing_for (remminafile_of_profile profile) "clientname")
      ∧ (absent_or_empty (profile.strings "exec") →
        put_string_option (remminafile_of_profile profile) "exec" "-s" argv = argv
          ∧ writes_nothing_for (remminafile_of_profile profile) "exec")
      ∧ (absent_or_empty (profile.strings "execpath") →
        put_string_option (remminafile_of_profile profile) "execpath" "-c" argv = argv
          ∧ writes_nothing_for (remminafile_of_profile profile) "execpath")
      ∧ (absent_or_empty (profile.strings "title") →
        put_string_option (remminafile_of_profile profile) "title" "-T" argv = argv
          ∧ writes_nothing_for (remminafile_of_profile profile) "title")
      ∧ (absent_or_empty (profile.strings "keymap") →
        put_string_option (remminafile_of_profile profile) "keymap" "-k" argv = argv
          ∧ writes_nothing_for (remminafile_of_profile profile) "keymap")
      ∧ (absent_or_empty (profile.strings "sharefolder") →
        put_printf_option (remminafile_of_profile profile) "sharefolder" "-r" "disk:share="
            argv = argv
          ∧ writes_nothing_for (remminafile_of_profile profile) "sharefolder")
      ∧ (absent_or_empty (profile.strings "experience") →
        put_string_option (remminafile_of_profile profile) "experience" "-x" argv = argv
          ∧ writes_nothing_for (remminafile_of_profile profile) "experience")
      ∧ (absent_or_empty (profile.strings "sound") →
        put_printf_option (remminafile_of_profile profile) "sound" "-r" "sound:" argv = argv
          ∧ writes_nothing_for (remminafile_of_profile profile) "sound") := by
  have hstring : ∀ key flag, absent_or_empty (profile.strings key) →
      put_string_option (remminafile_of_profile profile) key flag argv = argv := by
    intro key flag h
    have hnone : file_get_string (remminafile_of_profile profile) key = none :=
      present_value_eq_none h
    rw [put_string_option_append, hnone]
    simp [spec_value_tokens]
  have hprintf : ∀ key flag pre, absent_or_empty (profile.strings key) →
      put_printf_option (remminafile_of_profile profile) key flag pre argv = argv := by
    intro key flag pre h
    have hnone : file_get_string (remminafile_of_profile profile) key = none :=
      present_value_eq_none h
    rw [put_printf_option_append, hnone]
    simp [spec_value_tokens]
  have hpassword : absent_or_empty (profile.secrets "password") →
      put_password_option (remminafile_of_profile profile) "password" "-p" argv = argv := by
    intro h
    have hnone : file_get_secret (remminafile_of_profile profile) "password" = none :=
      present_value_eq_none h
    rw [put_password_option_append, hnone]
    simp [spec_value_tokens]
  have hvector : ∀ key, key ∈ ["username", "domain", "clientname", "exec", "execpath",
      "title", "keymap", "sharefolder", "experience", "sound"] →
      absent_or_empty (profile.strings key) →
      writes_nothing_for (remminafile_of_profile profile) key := by
    intro key hkey h socket_id
    rw [argv_strings_build_argv_any,
      spec_option_tokens_skipping_string (remminafile_of_profile profile) key hkey
        (present_value_eq_none h)]
  have hvector_password : absent_or_empty (profile.secrets "password") →
      writes_nothing_for (remminafile_of_profile profile) "password" := by
    intro h socket_id
    rw [argv_strings_build_argv_any,
      spec_option_tokens_skipping_password (remminafile_of_profile profile)
        (present_value_eq_none h)]
  exact ⟨fun h => ⟨hstring _ _ h, hvector _ (by decide) h⟩,
    fun h => ⟨hstring _ _ h, hvector _ (by decide) h⟩,
    fun h => ⟨hpassword h, hvector_password h⟩,
    fun h => ⟨hstring _ _ h, hvector _ (by decide) h⟩,
    fun h => ⟨hstring _ _ h, hvector _ (by decide) h⟩,
    fun h => ⟨hstring _ _ h, hvector _ (by decide) h⟩,
    fun h => ⟨hstring _ _ h, hvector _ (by decide) h⟩,
    fun h => ⟨hstring _ _ h, hvector _ (by decide) h⟩,
    fun h => ⟨hprintf _ _ _ h, hvector _ (by decide) h⟩,
    fun h => ⟨hstring _ _ h, hvector _ (by decide) h⟩,
    fun h => ⟨hprintf _ _ _ h, hvector _ (by decide) h⟩⟩

theorem absent_or_empty_option_writes_nothing_witness :
    stored_empty_username.strings "username" = some ""
      ∧ argv_strings (build_argv (remminafile_of_profile stored_empty_username) 58720263)
        = ["rdesktop", "-g", "1024x768", "-X", "58720263", "rdp.example.org"]
      ∧ (put_string_option (remminafile_of_profile stored_empty_username) "username" "-u"
          [some "rdesktop"]
          = [some "rdesktop"]
        ∧ writes_nothing_for (remminafile_of_profile stored_empty_username) "username")
      ∧ (put_string_option (remminafile_of_profile stored_empty_username) "domain" "-d"
          [some "rdesktop"]
          = [some "rdesktop"]
        ∧ writes_nothing_for (remminafile_of_profile stored_empty_username) "domain")
      ∧ (put_password_option (remminafile_of_profile stored_empty_username) "password" "-p"
          [some "rdesktop"]
          = [some "rdesktop"]
        ∧ writes_nothing_for (remminafile_of_profile stored_empty_username) "password")
      ∧ (put_string_option (remminafile_of_profile stored_empty_username) "clientname" "-n"
          [some "rdesktop"]
          = [some "rdesktop"]
        ∧ writes_nothing_for (remminafile_of_profile stored_empty_username) "clientname")
      ∧ (put_string_option (remminafile_of_profile stored_empty_username) "exec" "-s"
          [some "rdesktop"]
          = [some "rdesktop"]
        ∧ writes_nothing_for (remminafile_of_profile stored_empty_username) "exec")
      ∧ (put_string_option (remminafile_of_profile stored_empty_username) "execpath" "-c"
          [some "rdesktop"]
          = [some "rdesktop"]
        ∧ writes_nothing_for (remminafile_of_profile stored_empty_username) "execpath")
      ∧ (put_string_option (remminafile_of_profile stored_empty_username) "title" "-T"
          [some "rdesktop"]
          = [some "rdesktop"]
        ∧ writes_nothing_for (remminafile_of_profile stored_empty_username) "title")
      ∧ (put_string_option (remminafile_of_profile stored_empty_username) "keymap" "-k"
          [some "rdesktop"]
          = [some "rdesktop"]
        ∧ writes_nothing_for (remminafile_of_profile stored_empty_username) "keymap")
      ∧ (put_printf_option (remminafile_of_profile stored_empty_username) "sharefolder" "-r"
            "disk:share="
          [some "rdesktop"]
          = [some "rdesktop"]
        ∧ writes_nothing_for (remminafile_of_profile stored_empty_username) "sharefolder")
      ∧ (put_string_option (remminafile_of_profile stored_empty_username) "experience" "-x"
          [some "rdesktop"]
          = [some "rdesktop"]
        ∧ writes_nothing_for (remminafile_of_profile stored_empty_username) "experience")
      ∧ (put_printf_option (remminafile_of_profile stored_empty_username) "sound" "-r" "sound:"
          [some "rdesktop"]
          = [some "rdesktop"]
        ∧ writes_nothing_for (remminafile_of_profile stored_empty_username) "sound") :=
  have h := absent_or_empty_option_writes_nothing stored_empty_username [some "rdesktop"]
  ⟨rfl, by decide,
    h.1 (Or.inr rfl),
    h.2.1 (Or.inl rfl),
    h.2.2.1 (Or.inl rfl),
    h.2.2.2.1 (Or.inl rfl),
    h.2.2.2.2.1 (Or.inl rfl),
    h.2.2.2.2.2.1 (Or.inl rfl),
    h.2.2.2.2.2.2.1 (Or.inl rfl),
    h.2.2.2.2.2.2.2.1 (Or.inl rfl),
    h.2.2.2.2.2.2.2.2.1 (Or.inl rfl),
    h.2.2.2.2.2.2.2.2.2.1 (Or.inl rfl),
    h.2.2.2.2.2.2.2.2.2.2 (Or.inl rfl)⟩

end RemminaRdesktop
